import Mathlib

/-!
Shallow embedding of `src/main.rs` (gold-miner): the gameplay simulation
core — item catalog, hook state machine, miner movement, and the round
controller (`GameState`) — with rendering and window setup out of scope.

Modelling conventions:
* `f32` scalars are modelled as `ℚ`.  Every arithmetic operation the
  simulation performs on the modelled paths (adding or subtracting the
  fixed step `5.0`, comparisons against constants, coordinate sums and
  products) is exact at these magnitudes, so no rounding is modelled.
* The trigonometric functions `cos`/`sin` of `f32` and the constant
  `std::f32::consts::PI / 2.0` are kept abstract, bundled in a `FloatEnv`
  parameter: the claims under study are about *which expressions* the code
  feeds to them and never about their numeric values, so theorems quantify
  over every `FloatEnv` and concrete runs instantiate one whose values at
  the angles actually used (`cos 0 = 1`, `sin 0 = 0`) agree exactly with
  `f32` trigonometry.
* `Instant::now() - start_time >= GAME_DURATION` is an external real-time
  read; each tick of `GameState.update` receives it as a boolean input
  `timeUp`.  Real elapsed time is monotone, so once `timeUp` is `true` it
  stays `true` on later ticks; invariants are proved for arbitrary
  (hence also monotone) sequences of `timeUp` values.
* The `dt: f32` parameter of the Rust `update` functions is unused by the
  source (motion uses the fixed per-tick `HOOK_SPEED`); it is kept as an
  unused `ℚ` argument.
* `Miner::move_left`'s receiver is written `&mut mut` in the source, an
  obvious slip for `&mut self` (the body uses `self`); it is embedded with
  an ordinary receiver.
-/

/-- Abstract interpretation of the `f32` trigonometric operations used by
the hook: `cos`, `sin`, and the initial downward angle `PI / 2.0`. -/
structure FloatEnv where
  cos : ℚ → ℚ
  sin : ℚ → ℚ
  halfPi : ℚ

-- Game constants (src/main.rs lines 11-18)

def SCREEN_WIDTH : ℚ := 800

def SCREEN_HEIGHT : ℚ := 600

def MINER_WIDTH : ℚ := 60

def MINER_HEIGHT : ℚ := 40

def HOOK_LENGTH : ℚ := 200

def HOOK_SPEED : ℚ := 5

def ITEM_SIZE : ℚ := 30

/-- Item kinds (`enum ItemType`). -/
inductive ItemType where
  | Gold
  | Silver
  | Diamond
  | Rock
  deriving DecidableEq, Repr

/-- An item (`struct Item`): kind, absolute position, collected flag. -/
structure Item where
  item_type : ItemType
  posX : ℚ
  posY : ℚ
  collected : Bool
  deriving DecidableEq, Repr

/-- `Item::new`: fresh item at `(x, y)`, not collected. -/
def Item.new (t : ItemType) (x y : ℚ) : Item :=
  { item_type := t, posX := x, posY := y, collected := false }

/-- `Item::value`: Gold 100, Silver 50, Diamond 200, Rock 10. -/
def Item.value (it : Item) : ℤ :=
  match it.item_type with
  | ItemType.Gold => 100
  | ItemType.Silver => 50
  | ItemType.Diamond => 200
  | ItemType.Rock => 10

/-- `Item::size`: rocks are `1.5 × ITEM_SIZE`, everything else `ITEM_SIZE`. -/
def Item.size (it : Item) : ℚ :=
  match it.item_type with
  | ItemType.Rock => ITEM_SIZE * (3 / 2)
  | _ => ITEM_SIZE

/-- Hook states (`enum HookState`). -/
inductive HookState where
  | Idle
  | Thrown
  | Retracting
  deriving DecidableEq, Repr

/-- The hook (`struct Hook`): stored position, angle, extension length,
state, and the index of the attached item if any. -/
structure Hook where
  posX : ℚ
  posY : ℚ
  angle : ℚ
  length : ℚ
  state : HookState
  attached_item : Option ℕ
  deriving DecidableEq, Repr

/-- `Hook::new`: at `(x, y)`, pointing down (`PI / 2.0`), length 0, idle,
nothing attached. -/
def Hook.new (E : FloatEnv) (x y : ℚ) : Hook :=
  { posX := x, posY := y, angle := E.halfPi, length := 0,
    state := HookState.Idle, attached_item := none }

/-- `Hook::update`: advance the state machine one tick (Idle holds length
at 0; Thrown extends by `HOOK_SPEED` and flips to Retracting at
`HOOK_LENGTH`; Retracting shrinks by `HOOK_SPEED` and at length ≤ 0 floors
the length to 0, returns to Idle and releases the attachment), then store
the tip position `(cos(angle)·length, sin(angle)·length)`. -/
def Hook.update (E : FloatEnv) (h : Hook) (_dt : ℚ) : Hook :=
  let h1 :=
    match h.state with
    | HookState.Idle => { h with length := 0 }
    | HookState.Thrown =>
        let l := h.length + HOOK_SPEED
        if l ≥ HOOK_LENGTH then
          { h with length := l, state := HookState.Retracting }
        else
          { h with length := l }
    | HookState.Retracting =>
        let l := h.length - HOOK_SPEED
        if l ≤ 0 then
          { h with length := 0, state := HookState.Idle, attached_item := none }
        else
          { h with length := l }
  { h1 with posX := E.cos h1.angle * h1.length, posY := E.sin h1.angle * h1.length }

/-- `Hook::throw`: only from `Idle` — set the angle, reset length, clear
the attachment, go to `Thrown`; from any other state do nothing. -/
def Hook.throw (h : Hook) (angle : ℚ) : Hook :=
  if h.state = HookState.Idle then
    { h with angle := angle, state := HookState.Thrown, length := 0,
             attached_item := none }
  else h

/-- The per-item rectangle test of `Hook::check_collision`:
`(hook_x - item_x).abs() < item.size()/2 && (hook_y - item_y).abs() < item.size()/2`. -/
def hitTest (hx hy : ℚ) (it : Item) : Prop :=
  |hx - it.posX| < it.size / 2 ∧ |hy - it.posY| < it.size / 2

instance (hx hy : ℚ) (it : Item) : Decidable (hitTest hx hy it) := by
  unfold hitTest
  infer_instance

/-- The loop body of `Hook::check_collision`: scan the items in order
starting at index `i`; at the first not-yet-collected item (`!item.collected`)
containing the hook tip, mark it collected and report its index; afterwards
the loop breaks, so the rest of the list is untouched. -/
def scanItems (hx hy : ℚ) (i : ℕ) : List Item → Option ℕ × List Item
  | [] => (none, [])
  | it :: rest =>
      if it.collected = false ∧ hitTest hx hy it then
        (some i, { it with collected := true } :: rest)
      else
        let r := scanItems hx hy (i + 1) rest
        (r.1, it :: r.2)

/-- `Hook::check_collision`: an early return unless the state is `Thrown`
with nothing attached; otherwise scan the items, and on a hit record the
index, keep the item marked collected, and force `Retracting`. -/
def Hook.check_collision (h : Hook) (items : List Item) : Hook × List Item :=
  if h.state ≠ HookState.Thrown ∨ h.attached_item.isSome then (h, items)
  else
    let r := scanItems h.posX h.posY 0 items
    match r.1 with
    | some i =>
        ({ h with attached_item := some i, state := HookState.Retracting }, r.2)
    | none => (h, r.2)

/-- The miner (`struct Miner`). -/
structure Miner where
  posX : ℚ
  posY : ℚ
  width : ℚ
  height : ℚ
  deriving DecidableEq, Repr

/-- `Miner::new`. -/
def Miner.new (x y : ℚ) : Miner :=
  { posX := x, posY := y, width := MINER_WIDTH, height := MINER_HEIGHT }

/-- `Miner::move_left`: step 5 to the left, guarded by `x > width/2`. -/
def Miner.move_left (m : Miner) : Miner :=
  if m.posX > m.width / 2 then { m with posX := m.posX - 5 } else m

/-- `Miner::move_right`: step 5 to the right, guarded by
`x < SCREEN_WIDTH - width/2`. -/
def Miner.move_right (m : Miner) : Miner :=
  if m.posX < SCREEN_WIDTH - m.width / 2 then { m with posX := m.posX + 5 } else m

/-- The round controller (`struct GameState`); `start_time` lives outside
the model (see the `timeUp` input of `GameState.update`). -/
structure GameState where
  miner : Miner
  hook : Hook
  items : List Item
  score : ℤ
  game_over : Bool
  deriving DecidableEq, Repr

/-- `GameState::new`: miner centered at `(SCREEN_WIDTH/2, 50)`, idle hook at
the miner's position, score 0, round running.  The source fills `items`
with 20 randomly drawn `Item::new` calls from a process-local RNG; the
embedding takes the drawn `(kind, x, y)` triples as a parameter. -/
def GameState.new (E : FloatEnv) (spawns : List (ItemType × ℚ × ℚ)) : GameState :=
  let miner := Miner.new (SCREEN_WIDTH / 2) 50
  { miner := miner,
    hook := Hook.new E miner.posX miner.posY,
    items := spawns.map (fun s => Item.new s.1 s.2.1 s.2.2),
    score := 0,
    game_over := false }

/-- `GameState::update` one tick.  `timeUp` is the external read
`Instant::now() - start_time >= GAME_DURATION`.  Order, as in the source:
early return if over; set `game_over` and return if time is up; advance the
hook; run collision; credit the score if the hook is `Idle` and still
reports an attachment (clearing the reference); finally rewrite the hook
position to `miner + (cos(angle)·length, sin(angle)·length)`. -/
def GameState.update (E : FloatEnv) (s : GameState) (timeUp : Bool) (dt : ℚ) :
    GameState :=
  if s.game_over then s
  else if timeUp then { s with game_over := true }
  else
    let hook1 := s.hook.update E dt
    let r := hook1.check_collision s.items
    let hook2 := r.1
    let items2 := r.2
    let sh :=
      if hook2.state = HookState.Idle ∧ hook2.attached_item.isSome then
        match hook2.attached_item with
        | some idx =>
            if h : idx < items2.length then
              (s.score + (items2[idx]).value, { hook2 with attached_item := none })
            else
              (s.score, { hook2 with attached_item := none })
        | none => (s.score, hook2)
      else (s.score, hook2)
    let hook3 := sh.2
    { s with
      hook := { hook3 with
        posX := s.miner.posX + E.cos hook3.angle * hook3.length,
        posY := s.miner.posY + E.sin hook3.angle * hook3.length },
      items := items2,
      score := sh.1 }

/-- The three keys `key_down_event` reacts to. -/
inductive Key where
  | left
  | right
  | space
  deriving DecidableEq, Repr

/-- `GameState::key_down_event`: ignored once the round is over; Left/Right
move the miner; Space throws the hook at an angle the presentation layer
computes (`atan2` of mouse − miner), taken here as the input `a`. -/
def GameState.key_down_event (s : GameState) (k : Key) (a : ℚ) : GameState :=
  if s.game_over then s
  else
    match k with
    | Key.left => { s with miner := s.miner.move_left }
    | Key.right => { s with miner := s.miner.move_right }
    | Key.space => { s with hook := s.hook.throw a }

/-- The states a round can reach: the initial state of `GameState::new`
(for any RNG outcome), closed under ticks (any external time reading) and
key events (any key, any computed throw angle). -/
inductive Reachable (E : FloatEnv) : GameState → Prop
  | init (spawns : List (ItemType × ℚ × ℚ)) :
      Reachable E (GameState.new E spawns)
  | tick {s : GameState} (hs : Reachable E s) (timeUp : Bool) (dt : ℚ) :
      Reachable E (s.update E timeUp dt)
  | key {s : GameState} (hs : Reachable E s) (k : Key) (a : ℚ) :
      Reachable E (s.key_down_event k a)


/-! ### Invariant predicates and concrete-run definitions -/

/-- Length facts that hold of the hook in every reachable state: the length
is a multiple of the per-tick speed, bounded by the maximum, strictly below
the maximum while `Thrown`, and zero while `Idle`. -/
def LenInv (h : Hook) : Prop :=
  (∃ k : ℕ, h.length = 5 * k) ∧ h.length ≤ HOOK_LENGTH ∧
  (h.state = HookState.Thrown → h.length < HOOK_LENGTH) ∧
  (h.state = HookState.Idle → h.length = 0)

/-- While `Idle`, nothing is attached. -/
def IdleInv (h : Hook) : Prop :=
  h.state = HookState.Idle → h.attached_item = none

/-- The master invariant: sound hook length, no attachment while idle, any
attached index within the item list, and — because the scoring branch is
unreachable — a score still at its initial zero. -/
def GSInv (s : GameState) : Prop :=
  LenInv s.hook ∧ IdleInv s.hook ∧
  (∀ i, s.hook.attached_item = some i → i < s.items.length) ∧
  s.score = 0

/-- A concrete trigonometric interpretation for the concrete runs.  At
angle `0` it takes the exact `f32` values `cos 0 = 1`, `sin 0 = 0`; at
every other angle the unit-vector values `3/5` and `4/5`. -/
def E0 : FloatEnv :=
  { cos := fun a => if a = 0 then 1 else 3 / 5,
    sin := fun a => if a = 0 then 0 else 4 / 5,
    halfPi := 2 }

/-- Run `n` controller ticks with the round running and time not up. -/
def tickN (E : FloatEnv) (s : GameState) : ℕ → GameState
  | 0 => s
  | n + 1 => (tickN E s n).update E false 1

/-- A round with a single gold item at `(90, 120)` — inside the spawn area
of `GameState::new` — and the hook thrown at an angle whose cosine is `3/5`
and sine is `4/5`, so that the tip meets the item mid-flight. -/
def goldRound : GameState :=
  (GameState.new E0 [(ItemType.Gold, 90, 120)]).key_down_event Key.space 1

/-- The state of `C2_stale_position_after_over_tick` just before its final
tick: a fresh round (one gold item far from the hook's line of flight), the
hook thrown at angle `0` and extended for two ticks, then one step left.
The miner has moved but the stored hook position has not been recomputed
since the last tick. -/
def staleRound : GameState :=
  ((((GameState.new E0 [(ItemType.Gold, 400, 500)]).key_down_event Key.space 0).update
      E0 false 1).update E0 false 1).key_down_event Key.left 0

/-- A round state with the over flag already set. -/
def overRound : GameState :=
  { GameState.new E0 [] with game_over := true }

/-- The two miner commands of the claim about horizontal clamping. -/
inductive MinerMove where
  | left
  | right
  deriving DecidableEq, Repr

/-- Apply a sequence of `move_left` / `move_right` commands. -/
def applyMoves (m : Miner) : List MinerMove → Miner
  | [] => m
  | mv :: rest =>
      applyMoves
        (match mv with
        | MinerMove.left => m.move_left
        | MinerMove.right => m.move_right) rest

/-- What `move_left` / `move_right` maintain: fixed width, and a position
that is a multiple of the step `5` between `width/2 = 30` and
`SCREEN_WIDTH - width/2 = 770`. -/
def MinerInv (m : Miner) : Prop :=
  m.width = 60 ∧ ∃ k : ℕ, m.posX = 5 * k ∧ 6 ≤ k ∧ k ≤ 154

/-! ### Helper lemmas about the collision scan -/

/-- The scan never changes the number of items. -/
theorem scanItems_snd_length (hx hy : ℚ) (n : ℕ) (l : List Item) :
    (scanItems hx hy n l).2.length = l.length := by
  induction l generalizing n with
  | nil => simp [scanItems]
  | cons it rest ih =>
      by_cases hp : it.collected = false ∧ hitTest hx hy it
      · simp [scanItems, hp]
      · simp [scanItems, hp, ih]

/-- If no item in the list is an uncollected hit, the scan finds nothing
and returns the list unchanged. -/
theorem scanItems_none (hx hy : ℚ) :
    ∀ (l : List Item) (n : ℕ),
      (∀ it ∈ l, ¬(it.collected = false ∧ hitTest hx hy it)) →
      scanItems hx hy n l = (none, l) := by
  intro l
  induction l with
  | nil => intro n _; simp [scanItems]
  | cons it rest ih =>
      intro n hall
      have hp := hall it (List.mem_cons_self it rest)
      have hrest : ∀ x ∈ rest, ¬(x.collected = false ∧ hitTest hx hy x) :=
        fun x hx2 => hall x (List.mem_cons_of_mem it hx2)
      simp [scanItems, hp, ih _ hrest]

/-- If index `i` is the first uncollected hit (everything strictly before it
fails the test), the scan started at `n` attaches exactly there: it reports
index `n + i` and marks that one item collected. -/
theorem scanItems_attach (hx hy : ℚ) :
    ∀ (l : List Item) (n i : ℕ) (hi : i < l.length),
      (l.get ⟨i, hi⟩).collected = false →
      hitTest hx hy (l.get ⟨i, hi⟩) →
      (∀ it ∈ l.take i, ¬(it.collected = false ∧ hitTest hx hy it)) →
      scanItems hx hy n l =
        (some (n + i), l.set i { l.get ⟨i, hi⟩ with collected := true }) := by
  intro l
  induction l with
  | nil => intro n i hi; simp at hi
  | cons it rest ih =>
      intro n i hi hcol hhit hbefore
      cases i with
      | zero =>
          simp only [List.get] at hcol hhit
          have hp : it.collected = false ∧ hitTest hx hy it := ⟨hcol, hhit⟩
          simp [scanItems, hp, List.set, List.get]
      | succ j =>
          have hp : ¬(it.collected = false ∧ hitTest hx hy it) := by
            apply hbefore
            simp [List.take]
          have hj : j < rest.length := Nat.lt_of_succ_lt_succ hi
          have hrestbefore :
              ∀ x ∈ rest.take j, ¬(x.collected = false ∧ hitTest hx hy x) := by
            intro x hx2
            apply hbefore
            simp [List.take, hx2]
          have hcol2 : (rest.get ⟨j, hj⟩).collected = false := hcol
          have hhit2 : hitTest hx hy (rest.get ⟨j, hj⟩) := hhit
          have hr := ih (n + 1) j hj hcol2 hhit2 hrestbefore
          have harith : n + 1 + j = n + (j + 1) := by omega
          simp [scanItems, hp, hr, List.set, List.get, harith]

/-- Whenever the scan reports an index, that index lies within the bounds
it was given: at least the start offset and less than offset plus length. -/
theorem scanItems_fst_some (hx hy : ℚ) :
    ∀ (l : List Item) (n j : ℕ),
      (scanItems hx hy n l).1 = some j → n ≤ j ∧ j < n + l.length := by
  intro l
  induction l with
  | nil => intro n j h; simp [scanItems] at h
  | cons it rest ih =>
      intro n j h
      by_cases hp : it.collected = false ∧ hitTest hx hy it
      · simp [scanItems, hp] at h
        constructor
        · omega
        · simp only [List.length_cons]
          omega
      · simp [scanItems, hp] at h
        obtain ⟨h1, h2⟩ := ih (n + 1) j h
        constructor
        · omega
        · simp only [List.length_cons]
          omega

/-! ### Step lemmas for the hook and the collision check -/

/-- `check_collision` is the identity when the precondition fails. -/
theorem check_collision_noop {h : Hook} (items : List Item)
    (hpre : ¬(h.state = HookState.Thrown ∧ h.attached_item = none)) :
    h.check_collision items = (h, items) := by
  have : h.state ≠ HookState.Thrown ∨ h.attached_item.isSome := by
    by_cases hs : h.state = HookState.Thrown
    · right
      cases ha : h.attached_item with
      | none => exact absurd ⟨hs, ha⟩ hpre
      | some i => simp [ha]
    · left; exact hs
  simp [Hook.check_collision, this]

/-- `check_collision` keeps the number of items. -/
theorem check_collision_snd_length (h : Hook) (items : List Item) :
    (h.check_collision items).2.length = items.length := by
  by_cases hpre : h.state ≠ HookState.Thrown ∨ h.attached_item.isSome
  · simp [Hook.check_collision, hpre]
  · rcases hsc : (scanItems h.posX h.posY 0 items).1 with _ | i
    · simpa [Hook.check_collision, hpre, hsc] using scanItems_snd_length h.posX h.posY 0 items
    · simpa [Hook.check_collision, hpre, hsc] using scanItems_snd_length h.posX h.posY 0 items

/-- After `check_collision`, an attached index is either the hook's old one
or a fresh index within the item list. -/
theorem check_collision_attached {h : Hook} {items : List Item} {i : ℕ}
    (ha : (h.check_collision items).1.attached_item = some i) :
    h.attached_item = some i ∨ i < items.length := by
  by_cases hpre : h.state ≠ HookState.Thrown ∨ h.attached_item.isSome
  · simp [Hook.check_collision, hpre] at ha
    left; exact ha
  · rcases hsc : (scanItems h.posX h.posY 0 items).1 with _ | j
    · simp [Hook.check_collision, hpre, hsc] at ha
      left; exact ha
    · simp [Hook.check_collision, hpre, hsc] at ha
      right
      have := (scanItems_fst_some h.posX h.posY items 0 j hsc).2
      omega

/-- `check_collision` preserves "idle implies nothing attached": attaching
forces `Retracting`, every other path leaves the hook unchanged. -/
theorem check_collision_idle_inv {h : Hook} (items : List Item)
    (hinv : h.state = HookState.Idle → h.attached_item = none) :
    (h.check_collision items).1.state = HookState.Idle →
    (h.check_collision items).1.attached_item = none := by
  by_cases hpre : h.state ≠ HookState.Thrown ∨ h.attached_item.isSome
  · simp only [Hook.check_collision, hpre, if_pos]
    exact hinv
  · rcases hsc : (scanItems h.posX h.posY 0 items).1 with _ | j
    · simp only [Hook.check_collision, hpre, if_neg, hsc]
      simpa [hsc] using hinv
    · intro hst
      simp [Hook.check_collision, hpre, hsc] at hst

/-! ### Shape lemmas for one hook tick -/

/-- `Hook.update` from `Idle`: hold the length at zero. -/
theorem update_eq_of_idle (E : FloatEnv) (dt : ℚ) {h : Hook}
    (hs : h.state = HookState.Idle) :
    h.update E dt =
      { h with length := 0,
               posX := E.cos h.angle * 0, posY := E.sin h.angle * 0 } := by
  obtain ⟨px, py, ang, len, st, att⟩ := h
  simp only at hs
  subst hs
  simp [Hook.update]

/-- `Hook.update` from `Thrown`: extend by `HOOK_SPEED`, and flip to
`Retracting` exactly when the new length reaches `HOOK_LENGTH`. -/
theorem update_eq_of_thrown (E : FloatEnv) (dt : ℚ) {h : Hook}
    (hs : h.state = HookState.Thrown) :
    h.update E dt =
      if HOOK_LENGTH ≤ h.length + HOOK_SPEED then
        { h with length := h.length + HOOK_SPEED, state := HookState.Retracting,
                 posX := E.cos h.angle * (h.length + HOOK_SPEED),
                 posY := E.sin h.angle * (h.length + HOOK_SPEED) }
      else
        { h with length := h.length + HOOK_SPEED,
                 posX := E.cos h.angle * (h.length + HOOK_SPEED),
                 posY := E.sin h.angle * (h.length + HOOK_SPEED) } := by
  obtain ⟨px, py, ang, len, st, att⟩ := h
  simp only at hs
  subst hs
  by_cases hmax : HOOK_LENGTH ≤ len + HOOK_SPEED
  · simp [Hook.update, hmax]
  · simp [Hook.update, hmax]

/-- `Hook.update` from `Retracting`: shrink by `HOOK_SPEED`; on reaching
zero or below, floor the length to zero, return to `Idle`, and release. -/
theorem update_eq_of_retracting (E : FloatEnv) (dt : ℚ) {h : Hook}
    (hs : h.state = HookState.Retracting) :
    h.update E dt =
      if h.length - HOOK_SPEED ≤ 0 then
        { h with length := 0, state := HookState.Idle, attached_item := none,
                 posX := E.cos h.angle * 0, posY := E.sin h.angle * 0 }
      else
        { h with length := h.length - HOOK_SPEED,
                 posX := E.cos h.angle * (h.length - HOOK_SPEED),
                 posY := E.sin h.angle * (h.length - HOOK_SPEED) } := by
  obtain ⟨px, py, ang, len, st, att⟩ := h
  simp only at hs
  subst hs
  by_cases hzero : len - HOOK_SPEED ≤ 0
  · simp [Hook.update, hzero]
  · simp [Hook.update, hzero]

/-- `Hook.update` preserves `LenInv`. -/
theorem update_len_inv (E : FloatEnv) {h : Hook} (dt : ℚ) (hinv : LenInv h) :
    LenInv (h.update E dt) := by
  obtain ⟨⟨k, hk⟩, hle, hthr, hidle⟩ := hinv
  cases hst : h.state with
  | Idle =>
      rw [update_eq_of_idle E dt hst]
      exact ⟨⟨0, by norm_num⟩, by simp [HOOK_LENGTH], by simp [hst], by simp⟩
  | Thrown =>
      have hlt : h.length < 200 := by simpa [HOOK_LENGTH] using hthr hst
      have hk39 : (k : ℚ) ≤ 39 := by
        have : k < 40 := by
          have : (k : ℚ) < 40 := by rw [hk] at hlt; linarith
          exact_mod_cast this
        exact_mod_cast Nat.lt_succ_iff.mp this
      rw [update_eq_of_thrown E dt hst]
      by_cases hmax : HOOK_LENGTH ≤ h.length + HOOK_SPEED
      · rw [if_pos hmax]
        refine ⟨⟨k + 1, ?_⟩, ?_, ?_, ?_⟩
        · simp only [hk, HOOK_SPEED]
          push_cast
          ring
        · simp only [hk, HOOK_LENGTH, HOOK_SPEED]
          linarith
        · intro hcon
          simp at hcon
        · intro hcon
          simp at hcon
      · rw [if_neg hmax]
        have hlt2 : h.length + HOOK_SPEED < HOOK_LENGTH := lt_of_not_le hmax
        refine ⟨⟨k + 1, ?_⟩, ?_, ?_, ?_⟩
        · simp only [hk, HOOK_SPEED]
          push_cast
          ring
        · exact le_of_lt hlt2
        · intro _
          exact hlt2
        · intro hcon
          simp [hst] at hcon
  | Retracting =>
      rw [update_eq_of_retracting E dt hst]
      by_cases hzero : h.length - HOOK_SPEED ≤ 0
      · rw [if_pos hzero]
        exact ⟨⟨0, by norm_num⟩, by simp [HOOK_LENGTH], by simp, by simp⟩
      · rw [if_neg hzero]
        have hpos : 0 < h.length - HOOK_SPEED := lt_of_not_le hzero
        have hk2 : 1 ≤ k := by
          by_contra hk0
          have hk00 : k = 0 := by omega
          rw [hk, hk00] at hpos
          simp [HOOK_SPEED] at hpos
          linarith
        refine ⟨⟨k - 1, ?_⟩, ?_, ?_, ?_⟩
        · simp only [hk, HOOK_SPEED]
          push_cast [hk2]
          ring
        · simp only [HOOK_SPEED]
          simp only [HOOK_LENGTH] at hle ⊢
          linarith
        · intro hcon
          simp [hst] at hcon
        · intro hcon
          simp [hst] at hcon

/-- `Hook.update` preserves `IdleInv`, i.e. a hook that is `Idle` right
after a tick carries no attachment. -/
theorem update_idle_inv (E : FloatEnv) {h : Hook} (dt : ℚ) (hinv : IdleInv h) :
    IdleInv (h.update E dt) := by
  cases hst : h.state with
  | Idle =>
      rw [update_eq_of_idle E dt hst]
      intro _
      simpa using hinv hst
  | Thrown =>
      rw [update_eq_of_thrown E dt hst]
      by_cases hmax : HOOK_LENGTH ≤ h.length + HOOK_SPEED
      · rw [if_pos hmax]; intro hcon; simp at hcon
      · rw [if_neg hmax]; intro hcon; simp [hst] at hcon
  | Retracting =>
      rw [update_eq_of_retracting E dt hst]
      by_cases hzero : h.length - HOOK_SPEED ≤ 0
      · rw [if_pos hzero]; intro _; rfl
      · rw [if_neg hzero]; intro hcon; simp [hst] at hcon

/-- A hook tick either keeps the attachment or releases it. -/
theorem update_attached (E : FloatEnv) (h : Hook) (dt : ℚ) :
    (h.update E dt).attached_item = h.attached_item ∨
    (h.update E dt).attached_item = none := by
  cases hst : h.state with
  | Idle =>
      rw [update_eq_of_idle E dt hst]; left; rfl
  | Thrown =>
      rw [update_eq_of_thrown E dt hst]
      by_cases hmax : HOOK_LENGTH ≤ h.length + HOOK_SPEED
      · rw [if_pos hmax]; left; rfl
      · rw [if_neg hmax]; left; rfl
  | Retracting =>
      rw [update_eq_of_retracting E dt hst]
      by_cases hzero : h.length - HOOK_SPEED ≤ 0
      · rw [if_pos hzero]; right; rfl
      · rw [if_neg hzero]; left; rfl

/-! ### One full controller tick, characterized -/

/-- A tick with the round running and time not yet up, when the
hook-after-collision does not trigger the scoring branch: advance the hook,
run the collision scan, and rewrite the hook position relative to the
miner.  (The scoring branch never does trigger on reachable states — see
`reachable_inv`.) -/
theorem update_run (E : FloatEnv) (s : GameState) (dt : ℚ)
    (hov : s.game_over = false)
    (hcond : ¬(((s.hook.update E dt).check_collision s.items).1.state = HookState.Idle ∧
               ((s.hook.update E dt).check_collision s.items).1.attached_item.isSome = true)) :
    s.update E false dt =
      { s with
        hook := { ((s.hook.update E dt).check_collision s.items).1 with
          posX := s.miner.posX +
            E.cos ((s.hook.update E dt).check_collision s.items).1.angle *
              ((s.hook.update E dt).check_collision s.items).1.length,
          posY := s.miner.posY +
            E.sin ((s.hook.update E dt).check_collision s.items).1.angle *
              ((s.hook.update E dt).check_collision s.items).1.length },
        items := ((s.hook.update E dt).check_collision s.items).2 } := by
  simp only [GameState.update, hov, Bool.false_eq_true, if_false]
  rw [if_neg hcond]

/-- `check_collision` preserves `LenInv`: it never touches the length, and
the only state change it makes is into `Retracting`. -/
theorem check_collision_len_inv {h : Hook} (items : List Item)
    (hinv : LenInv h) : LenInv (h.check_collision items).1 := by
  by_cases hpre : h.state ≠ HookState.Thrown ∨ h.attached_item.isSome
  · simpa [Hook.check_collision, hpre] using hinv
  · rcases hsc : (scanItems h.posX h.posY 0 items).1 with _ | j
    · simpa [Hook.check_collision, hpre, hsc] using hinv
    · obtain ⟨hk5, hle, _, _⟩ := hinv
      refine ⟨?_, ?_, ?_, ?_⟩
      · simpa [Hook.check_collision, hpre, hsc] using hk5
      · simpa [Hook.check_collision, hpre, hsc] using hle
      · intro hcon
        simp [Hook.check_collision, hpre, hsc] at hcon
      · intro hcon
        simp [Hook.check_collision, hpre, hsc] at hcon

/-- `throw` preserves `LenInv`: firing resets the length to zero. -/
theorem throw_len_inv {h : Hook} (a : ℚ) (hinv : LenInv h) :
    LenInv (h.throw a) := by
  by_cases hs : h.state = HookState.Idle
  · refine ⟨⟨0, ?_⟩, ?_, ?_, ?_⟩ <;> simp [Hook.throw, hs, HOOK_LENGTH]
  · simpa [Hook.throw, hs] using hinv

/-- `throw` preserves `IdleInv`: firing clears the attachment anyway. -/
theorem throw_idle_inv {h : Hook} (a : ℚ) (hinv : IdleInv h) :
    IdleInv (h.throw a) := by
  by_cases hs : h.state = HookState.Idle
  · intro hcon
    simp [Hook.throw, hs] at hcon
  · simpa [Hook.throw, hs] using hinv

/-- `throw` keeps or clears the attachment. -/
theorem throw_attached (h : Hook) (a : ℚ) :
    (h.throw a).attached_item = h.attached_item ∨
    (h.throw a).attached_item = none := by
  by_cases hs : h.state = HookState.Idle
  · right; simp [Hook.throw, hs]
  · left; simp [Hook.throw, hs]

/-- Every reachable round state satisfies the master invariant. -/
theorem reachable_inv (E : FloatEnv) :
    ∀ s : GameState, Reachable E s → GSInv s := by
  intro s hreach
  induction hreach with
  | init spawns =>
      refine ⟨⟨⟨0, ?_⟩, ?_, ?_, ?_⟩, ?_, ?_, ?_⟩
      · show (0 : ℚ) = 5 * ((0 : ℕ) : ℚ)
        norm_num
      · show (0 : ℚ) ≤ HOOK_LENGTH
        norm_num [HOOK_LENGTH]
      · intro hcon
        exact HookState.noConfusion hcon
      · intro _
        rfl
      · intro _
        rfl
      · intro i ha
        exact Option.noConfusion ha
      · rfl
  | tick hs timeUp dt ih =>
      rename_i s'
      obtain ⟨hlen, hidle, hbound, hscore⟩ := ih
      by_cases hov : s'.game_over
      · simpa [GameState.update, hov] using ⟨hlen, hidle, hbound, hscore⟩
      · rw [Bool.not_eq_true] at hov
        cases timeUp with
        | true =>
            simp only [GameState.update, hov, Bool.false_eq_true, if_false, if_true]
            exact ⟨hlen, hidle, hbound, hscore⟩
        | false =>
            have h1len : LenInv (s'.hook.update E dt) := update_len_inv E dt hlen
            have h1idle : IdleInv (s'.hook.update E dt) := update_idle_inv E dt hidle
            have h2idle : IdleInv ((s'.hook.update E dt).check_collision s'.items).1 :=
              check_collision_idle_inv s'.items h1idle
            have h2len : LenInv ((s'.hook.update E dt).check_collision s'.items).1 :=
              check_collision_len_inv s'.items h1len
            have hcond : ¬(((s'.hook.update E dt).check_collision s'.items).1.state = HookState.Idle ∧
                ((s'.hook.update E dt).check_collision s'.items).1.attached_item.isSome = true) := by
              rintro ⟨hst, hsome⟩
              rw [h2idle hst] at hsome
              simp at hsome
            rw [update_run E s' dt hov hcond]
            refine ⟨h2len, h2idle, ?_, hscore⟩
            intro i ha
            have hlen2 : ((s'.hook.update E dt).check_collision s'.items).2.length = s'.items.length :=
              check_collision_snd_length _ _
            have := check_collision_attached ha
            rcases this with hold | hnew
            · rcases update_attached E s'.hook dt with hsame | hnone
              · rw [hsame] at hold
                simpa [hlen2] using hbound i hold
              · rw [hnone] at hold
                exact absurd hold (by simp)
            · simpa [hlen2] using hnew
  | key hs k a ih =>
      rename_i s'
      obtain ⟨hlen, hidle, hbound, hscore⟩ := ih
      by_cases hov : s'.game_over
      · simpa [GameState.key_down_event, hov] using ⟨hlen, hidle, hbound, hscore⟩
      · rw [Bool.not_eq_true] at hov
        cases k with
        | left =>
            simp only [GameState.key_down_event, hov, Bool.false_eq_true, if_false]
            exact ⟨hlen, hidle, hbound, hscore⟩
        | right =>
            simp only [GameState.key_down_event, hov, Bool.false_eq_true, if_false]
            exact ⟨hlen, hidle, hbound, hscore⟩
        | space =>
            simp only [GameState.key_down_event, hov, Bool.false_eq_true, if_false]
            refine ⟨throw_len_inv a hlen, throw_idle_inv a hidle, ?_, hscore⟩
            intro i ha
            rcases throw_attached s'.hook a with hsame | hnone
            · rw [hsame] at ha
              exact hbound i ha
            · rw [hnone] at ha
              exact absurd ha (by simp)

/-! ### Constructor distinctness, in rewriting form -/

theorem retracting_ne_idle : (HookState.Retracting = HookState.Idle) = False := by decide

theorem thrown_ne_idle : (HookState.Thrown = HookState.Idle) = False := by decide

theorem idle_ne_thrown : (HookState.Idle = HookState.Thrown) = False := by decide

theorem retracting_ne_thrown : (HookState.Retracting = HookState.Thrown) = False := by decide

/-! ### Concrete-run infrastructure -/

theorem tickN_zero (E : FloatEnv) (s : GameState) : tickN E s 0 = s := rfl

theorem tickN_succ (E : FloatEnv) (s : GameState) (n : ℕ) :
    tickN E s (n + 1) = (tickN E s n).update E false 1 := rfl

/-- Ticking preserves reachability. -/
theorem reachable_tickN (E : FloatEnv) {s : GameState} (hs : Reachable E s)
    (n : ℕ) : Reachable E (tickN E s n) := by
  induction n with
  | zero => exact hs
  | succ n ih => exact Reachable.tick ih false 1

set_option maxHeartbeats 1000000 in
/-- C1: the claim says that when the hook transitions `Retracting → Idle`
while carrying an attached item, the score increases by that item's value
on that same tick.  The code never does this: `Hook::update` clears
`attached_item` in the very step in which it sets the state to `Idle`, so
the scoring branch of `GameState::update` (which requires `Idle` AND a
still-set attachment) is dead and the score stays `0` in every reachable
state.  The concrete run below attaches the gold item at tick 27, carries
it all the way back (tick 53 still `Retracting` with `some 0`), and at the
full-retraction tick 54 the hook is `Idle`, the item is collected — and the
score is still `0` instead of the claimed `100`. -/
theorem C1_scoring_branch_dead :
    (∀ s : GameState, Reachable E0 s → s.score = 0) ∧
    (tickN E0 goldRound 27).hook.attached_item = some 0 ∧
    (tickN E0 goldRound 27).hook.state = HookState.Retracting ∧
    (tickN E0 goldRound 27).items.map Item.collected = [true] ∧
    (tickN E0 goldRound 53).hook.state = HookState.Retracting ∧
    (tickN E0 goldRound 53).hook.attached_item = some 0 ∧
    (tickN E0 goldRound 54).hook.state = HookState.Idle ∧
    (tickN E0 goldRound 54).hook.attached_item = none ∧
    (tickN E0 goldRound 54).items.map Item.collected = [true] ∧
    (tickN E0 goldRound 54).score = 0 := by
  have hscore : ∀ s : GameState, Reachable E0 s → s.score = 0 :=
    fun s hs => (reachable_inv E0 s hs).2.2.2
  have t0 : tickN E0 goldRound 0 = (⟨⟨400, 50, 60, 40⟩, ⟨400, 50, 1, 0, HookState.Thrown, none⟩, [⟨ItemType.Gold, 90, 120, false⟩], 0, false⟩ : GameState) := by
    rw [tickN_zero]
    norm_num [goldRound, GameState.new, GameState.key_down_event, Hook.throw,
      Hook.new, Miner.new, Item.new, MINER_WIDTH, MINER_HEIGHT, SCREEN_WIDTH, E0]
  have s1 : ((⟨⟨400, 50, 60, 40⟩, ⟨400, 50, 1, 0, HookState.Thrown, none⟩, [⟨ItemType.Gold, 90, 120, false⟩], 0, false⟩ : GameState)).update E0 false 1 = (⟨⟨400, 50, 60, 40⟩, ⟨403, 54, 1, 5, HookState.Thrown, none⟩, [⟨ItemType.Gold, 90, 120, false⟩], 0, false⟩ : GameState) := by
    norm_num [GameState.update, Hook.update, Hook.check_collision, scanItems,
      hitTest, Item.size, ITEM_SIZE, HOOK_SPEED, HOOK_LENGTH, E0,
      retracting_ne_idle, thrown_ne_idle, idle_ne_thrown, retracting_ne_thrown]
  have t1 : tickN E0 goldRound 1 = (⟨⟨400, 50, 60, 40⟩, ⟨403, 54, 1, 5, HookState.Thrown, none⟩, [⟨ItemType.Gold, 90, 120, false⟩], 0, false⟩ : GameState) := by
    rw [show (1 : ℕ) = 0 + 1 from rfl, tickN_succ, t0, s1]
  have s2 : ((⟨⟨400, 50, 60, 40⟩, ⟨403, 54, 1, 5, HookState.Thrown, none⟩, [⟨ItemType.Gold, 90, 120, false⟩], 0, false⟩ : GameState)).update E0 false 1 = (⟨⟨400, 50, 60, 40⟩, ⟨406, 58, 1, 10, HookState.Thrown, none⟩, [⟨ItemType.Gold, 90, 120, false⟩], 0, false⟩ : GameState) := by
    norm_num [GameState.update, Hook.update, Hook.check_collision, scanItems,
      hitTest, Item.size, ITEM_SIZE, HOOK_SPEED, HOOK_LENGTH, E0,
      retracting_ne_idle, thrown_ne_idle, idle_ne_thrown, retracting_ne_thrown]
  have t2 : tickN E0 goldRound 2 = (⟨⟨400, 50, 60, 40⟩, ⟨406, 58, 1, 10, HookState.Thrown, none⟩, [⟨ItemType.Gold, 90, 120, false⟩], 0, false⟩ : GameState) := by
    rw [show (2 : ℕ) = 1 + 1 from rfl, tickN_succ, t1, s2]
  have s3 : ((⟨⟨400, 50, 60, 40⟩, ⟨406, 58, 1, 10, HookState.Thrown, none⟩, [⟨ItemType.Gold, 90, 120, false⟩], 0, false⟩ : GameState)).update E0 false 1 = (⟨⟨400, 50, 60, 40⟩, ⟨409, 62, 1, 15, HookState.Thrown, none⟩, [⟨ItemType.Gold, 90, 120, false⟩], 0, false⟩ : GameState) := by
    norm_num [GameState.update, Hook.update, Hook.check_collision, scanItems,
      hitTest, Item.size, ITEM_SIZE, HOOK_SPEED, HOOK_LENGTH, E0,
      retracting_ne_idle, thrown_ne_idle, idle_ne_thrown, retracting_ne_thrown]
  have t3 : tickN E0 goldRound 3 = (⟨⟨400, 50, 60, 40⟩, ⟨409, 62, 1, 15, HookState.Thrown, none⟩, [⟨ItemType.Gold, 90, 120, false⟩], 0, false⟩ : GameState) := by
    rw [show (3 : ℕ) = 2 + 1 from rfl, tickN_succ, t2, s3]
  have s4 : ((⟨⟨400, 50, 60, 40⟩, ⟨409, 62, 1, 15, HookState.Thrown, none⟩, [⟨ItemType.Gold, 90, 120, false⟩], 0, false⟩ : GameState)).update E0 false 1 = (⟨⟨400, 50, 60, 40⟩, ⟨412, 66, 1, 20, HookState.Thrown, none⟩, [⟨ItemType.Gold, 90, 120, false⟩], 0, false⟩ : GameState) := by
    norm_num [GameState.update, Hook.update, Hook.check_collision, scanItems,
      hitTest, Item.size, ITEM_SIZE, HOOK_SPEED, HOOK_LENGTH, E0,
      retracting_ne_idle, thrown_ne_idle, idle_ne_thrown, retracting_ne_thrown]
  have t4 : tickN E0 goldRound 4 = (⟨⟨400, 50, 60, 40⟩, ⟨412, 66, 1, 20, HookState.Thrown, none⟩, [⟨ItemType.Gold, 90, 120, false⟩], 0, false⟩ : GameState) := by
    rw [show (4 : ℕ) = 3 + 1 from rfl, tickN_succ, t3, s4]
  have s5 : ((⟨⟨400, 50, 60, 40⟩, ⟨412, 66, 1, 20, HookState.Thrown, none⟩, [⟨ItemType.Gold, 90, 120, false⟩], 0, false⟩ : GameState)).update E0 false 1 = (⟨⟨400, 50, 60, 40⟩, ⟨415, 70, 1, 25, HookState.Thrown, none⟩, [⟨ItemType.Gold, 90, 120, false⟩], 0, false⟩ : GameState) := by
    norm_num [GameState.update, Hook.update, Hook.check_collision, scanItems,
      hitTest, Item.size, ITEM_SIZE, HOOK_SPEED, HOOK_LENGTH, E0,
      retracting_ne_idle, thrown_ne_idle, idle_ne_thrown, retracting_ne_thrown]
  have t5 : tickN E0 goldRound 5 = (⟨⟨400, 50, 60, 40⟩, ⟨415, 70, 1, 25, HookState.Thrown, none⟩, [⟨ItemType.Gold, 90, 120, false⟩], 0, false⟩ : GameState) := by
    rw [show (5 : ℕ) = 4 + 1 from rfl, tickN_succ, t4, s5]
  have s6 : ((⟨⟨400, 50, 60, 40⟩, ⟨415, 70, 1, 25, HookState.Thrown, none⟩, [⟨ItemType.Gold, 90, 120, false⟩], 0, false⟩ : GameState)).update E0 false 1 = (⟨⟨400, 50, 60, 40⟩, ⟨418, 74, 1, 30, HookState.Thrown, none⟩, [⟨ItemType.Gold, 90, 120, false⟩], 0, false⟩ : GameState) := by
    norm_num [GameState.update, Hook.update, Hook.check_collision, scanItems,
      hitTest, Item.size, ITEM_SIZE, HOOK_SPEED, HOOK_LENGTH, E0,
      retracting_ne_idle, thrown_ne_idle, idle_ne_thrown, retracting_ne_thrown]
  have t6 : tickN E0 goldRound 6 = (⟨⟨400, 50, 60, 40⟩, ⟨418, 74, 1, 30, HookState.Thrown, none⟩, [⟨ItemType.Gold, 90, 120, false⟩], 0, false⟩ : GameState) := by
    rw [show (6 : ℕ) = 5 + 1 from rfl, tickN_succ, t5, s6]
  have s7 : ((⟨⟨400, 50, 60, 40⟩, ⟨418, 74, 1, 30, HookState.Thrown, none⟩, [⟨ItemType.Gold, 90, 120, false⟩], 0, false⟩ : GameState)).update E0 false 1 = (⟨⟨400, 50, 60, 40⟩, ⟨421, 78, 1, 35, HookState.Thrown, none⟩, [⟨ItemType.Gold, 90, 120, false⟩], 0, false⟩ : GameState) := by
    norm_num [GameState.update, Hook.update, Hook.check_collision, scanItems,
      hitTest, Item.size, ITEM_SIZE, HOOK_SPEED, HOOK_LENGTH, E0,
      retracting_ne_idle, thrown_ne_idle, idle_ne_thrown, retracting_ne_thrown]
  have t7 : tickN E0 goldRound 7 = (⟨⟨400, 50, 60, 40⟩, ⟨421, 78, 1, 35, HookState.Thrown, none⟩, [⟨ItemType.Gold, 90, 120, false⟩], 0, false⟩ : GameState) := by
    rw [show (7 : ℕ) = 6 + 1 from rfl, tickN_succ, t6, s7]
  have s8 : ((⟨⟨400, 50, 60, 40⟩, ⟨421, 78, 1, 35, HookState.Thrown, none⟩, [⟨ItemType.Gold, 90, 120, false⟩], 0, false⟩ : GameState)).update E0 false 1 = (⟨⟨400, 50, 60, 40⟩, ⟨424, 82, 1, 40, HookState.Thrown, none⟩, [⟨ItemType.Gold, 90, 120, false⟩], 0, false⟩ : GameState) := by
    norm_num [GameState.update, Hook.update, Hook.check_collision, scanItems,
      hitTest, Item.size, ITEM_SIZE, HOOK_SPEED, HOOK_LENGTH, E0,
      retracting_ne_idle, thrown_ne_idle, idle_ne_thrown, retracting_ne_thrown]
  have t8 : tickN E0 goldRound 8 = (⟨⟨400, 50, 60, 40⟩, ⟨424, 82, 1, 40, HookState.Thrown, none⟩, [⟨ItemType.Gold, 90, 120, false⟩], 0, false⟩ : GameState) := by
    rw [show (8 : ℕ) = 7 + 1 from rfl, tickN_succ, t7, s8]
  have s9 : ((⟨⟨400, 50, 60, 40⟩, ⟨424, 82, 1, 40, HookState.Thrown, none⟩, [⟨ItemType.Gold, 90, 120, false⟩], 0, false⟩ : GameState)).update E0 false 1 = (⟨⟨400, 50, 60, 40⟩, ⟨427, 86, 1, 45, HookState.Thrown, none⟩, [⟨ItemType.Gold, 90, 120, false⟩], 0, false⟩ : GameState) := by
    norm_num [GameState.update, Hook.update, Hook.check_collision, scanItems,
      hitTest, Item.size, ITEM_SIZE, HOOK_SPEED, HOOK_LENGTH, E0,
      retracting_ne_idle, thrown_ne_idle, idle_ne_thrown, retracting_ne_thrown]
  have t9 : tickN E0 goldRound 9 = (⟨⟨400, 50, 60, 40⟩, ⟨427, 86, 1, 45, HookState.Thrown, none⟩, [⟨ItemType.Gold, 90, 120, false⟩], 0, false⟩ : GameState) := by
    rw [show (9 : ℕ) = 8 + 1 from rfl, tickN_succ, t8, s9]
  have s10 : ((⟨⟨400, 50, 60, 40⟩, ⟨427, 86, 1, 45, HookState.Thrown, none⟩, [⟨ItemType.Gold, 90, 120, false⟩], 0, false⟩ : GameState)).update E0 false 1 = (⟨⟨400, 50, 60, 40⟩, ⟨430, 90, 1, 50, HookState.Thrown, none⟩, [⟨ItemType.Gold, 90, 120, false⟩], 0, false⟩ : GameState) := by
    norm_num [GameState.update, Hook.update, Hook.check_collision, scanItems,
      hitTest, Item.size, ITEM_SIZE, HOOK_SPEED, HOOK_LENGTH, E0,
      retracting_ne_idle, thrown_ne_idle, idle_ne_thrown, retracting_ne_thrown]
  have t10 : tickN E0 goldRound 10 = (⟨⟨400, 50, 60, 40⟩, ⟨430, 90, 1, 50, HookState.Thrown, none⟩, [⟨ItemType.Gold, 90, 120, false⟩], 0, false⟩ : GameState) := by
    rw [show (10 : ℕ) = 9 + 1 from rfl, tickN_succ, t9, s10]
  have s11 : ((⟨⟨400, 50, 60, 40⟩, ⟨430, 90, 1, 50, HookState.Thrown, none⟩, [⟨ItemType.Gold, 90, 120, false⟩], 0, false⟩ : GameState)).update E0 false 1 = (⟨⟨400, 50, 60, 40⟩, ⟨433, 94, 1, 55, HookState.Thrown, none⟩, [⟨ItemType.Gold, 90, 120, false⟩], 0, false⟩ : GameState) := by
    norm_num [GameState.update, Hook.update, Hook.check_collision, scanItems,
      hitTest, Item.size, ITEM_SIZE, HOOK_SPEED, HOOK_LENGTH, E0,
      retracting_ne_idle, thrown_ne_idle, idle_ne_thrown, retracting_ne_thrown]
  have t11 : tickN E0 goldRound 11 = (⟨⟨400, 50, 60, 40⟩, ⟨433, 94, 1, 55, HookState.Thrown, none⟩, [⟨ItemType.Gold, 90, 120, false⟩], 0, false⟩ : GameState) := by
    rw [show (11 : ℕ) = 10 + 1 from rfl, tickN_succ, t10, s11]
  have s12 : ((⟨⟨400, 50, 60, 40⟩, ⟨433, 94, 1, 55, HookState.Thrown, none⟩, [⟨ItemType.Gold, 90, 120, false⟩], 0, false⟩ : GameState)).update E0 false 1 = (⟨⟨400, 50, 60, 40⟩, ⟨436, 98, 1, 60, HookState.Thrown, none⟩, [⟨ItemType.Gold, 90, 120, false⟩], 0, false⟩ : GameState) := by
    norm_num [GameState.update, Hook.update, Hook.check_collision, scanItems,
      hitTest, Item.size, ITEM_SIZE, HOOK_SPEED, HOOK_LENGTH, E0,
      retracting_ne_idle, thrown_ne_idle, idle_ne_thrown, retracting_ne_thrown]
  have t12 : tickN E0 goldRound 12 = (⟨⟨400, 50, 60, 40⟩, ⟨436, 98, 1, 60, HookState.Thrown, none⟩, [⟨ItemType.Gold, 90, 120, false⟩], 0, false⟩ : GameState) := by
    rw [show (12 : ℕ) = 11 + 1 from rfl, tickN_succ, t11, s12]
  have s13 : ((⟨⟨400, 50, 60, 40⟩, ⟨436, 98, 1, 60, HookState.Thrown, none⟩, [⟨ItemType.Gold, 90, 120, false⟩], 0, false⟩ : GameState)).update E0 false 1 = (⟨⟨400, 50, 60, 40⟩, ⟨439, 102, 1, 65, HookState.Thrown, none⟩, [⟨ItemType.Gold, 90, 120, false⟩], 0, false⟩ : GameState) := by
    norm_num [GameState.update, Hook.update, Hook.check_collision, scanItems,
      hitTest, Item.size, ITEM_SIZE, HOOK_SPEED, HOOK_LENGTH, E0,
      retracting_ne_idle, thrown_ne_idle, idle_ne_thrown, retracting_ne_thrown]
  have t13 : tickN E0 goldRound 13 = (⟨⟨400, 50, 60, 40⟩, ⟨439, 102, 1, 65, HookState.Thrown, none⟩, [⟨ItemType.Gold, 90, 120, false⟩], 0, false⟩ : GameState) := by
    rw [show (13 : ℕ) = 12 + 1 from rfl, tickN_succ, t12, s13]
  have s14 : ((⟨⟨400, 50, 60, 40⟩, ⟨439, 102, 1, 65, HookState.Thrown, none⟩, [⟨ItemType.Gold, 90, 120, false⟩], 0, false⟩ : GameState)).update E0 false 1 = (⟨⟨400, 50, 60, 40⟩, ⟨442, 106, 1, 70, HookState.Thrown, none⟩, [⟨ItemType.Gold, 90, 120, false⟩], 0, false⟩ : GameState) := by
    norm_num [GameState.update, Hook.update, Hook.check_collision, scanItems,
      hitTest, Item.size, ITEM_SIZE, HOOK_SPEED, HOOK_LENGTH, E0,
      retracting_ne_idle, thrown_ne_idle, idle_ne_thrown, retracting_ne_thrown]
  have t14 : tickN E0 goldRound 14 = (⟨⟨400, 50, 60, 40⟩, ⟨442, 106, 1, 70, HookState.Thrown, none⟩, [⟨ItemType.Gold, 90, 120, false⟩], 0, false⟩ : GameState) := by
    rw [show (14 : ℕ) = 13 + 1 from rfl, tickN_succ, t13, s14]
  have s15 : ((⟨⟨400, 50, 60, 40⟩, ⟨442, 106, 1, 70, HookState.Thrown, none⟩, [⟨ItemType.Gold, 90, 120, false⟩], 0, false⟩ : GameState)).update E0 false 1 = (⟨⟨400, 50, 60, 40⟩, ⟨445, 110, 1, 75, HookState.Thrown, none⟩, [⟨ItemType.Gold, 90, 120, false⟩], 0, false⟩ : GameState) := by
    norm_num [GameState.update, Hook.update, Hook.check_collision, scanItems,
      hitTest, Item.size, ITEM_SIZE, HOOK_SPEED, HOOK_LENGTH, E0,
      retracting_ne_idle, thrown_ne_idle, idle_ne_thrown, retracting_ne_thrown]
  have t15 : tickN E0 goldRound 15 = (⟨⟨400, 50, 60, 40⟩, ⟨445, 110, 1, 75, HookState.Thrown, none⟩, [⟨ItemType.Gold, 90, 120, false⟩], 0, false⟩ : GameState) := by
    rw [show (15 : ℕ) = 14 + 1 from rfl, tickN_succ, t14, s15]
  have s16 : ((⟨⟨400, 50, 60, 40⟩, ⟨445, 110, 1, 75, HookState.Thrown, none⟩, [⟨ItemType.Gold, 90, 120, false⟩], 0, false⟩ : GameState)).update E0 false 1 = (⟨⟨400, 50, 60, 40⟩, ⟨448, 114, 1, 80, HookState.Thrown, none⟩, [⟨ItemType.Gold, 90, 120, false⟩], 0, false⟩ : GameState) := by
    norm_num [GameState.update, Hook.update, Hook.check_collision, scanItems,
      hitTest, Item.size, ITEM_SIZE, HOOK_SPEED, HOOK_LENGTH, E0,
      retracting_ne_idle, thrown_ne_idle, idle_ne_thrown, retracting_ne_thrown]
  have t16 : tickN E0 goldRound 16 = (⟨⟨400, 50, 60, 40⟩, ⟨448, 114, 1, 80, HookState.Thrown, none⟩, [⟨ItemType.Gold, 90, 120, false⟩], 0, false⟩ : GameState) := by
    rw [show (16 : ℕ) = 15 + 1 from rfl, tickN_succ, t15, s16]
  have s17 : ((⟨⟨400, 50, 60, 40⟩, ⟨448, 114, 1, 80, HookState.Thrown, none⟩, [⟨ItemType.Gold, 90, 120, false⟩], 0, false⟩ : GameState)).update E0 false 1 = (⟨⟨400, 50, 60, 40⟩, ⟨451, 118, 1, 85, HookState.Thrown, none⟩, [⟨ItemType.Gold, 90, 120, false⟩], 0, false⟩ : GameState) := by
    norm_num [GameState.update, Hook.update, Hook.check_collision, scanItems,
      hitTest, Item.size, ITEM_SIZE, HOOK_SPEED, HOOK_LENGTH, E0,
      retracting_ne_idle, thrown_ne_idle, idle_ne_thrown, retracting_ne_thrown]
  have t17 : tickN E0 goldRound 17 = (⟨⟨400, 50, 60, 40⟩, ⟨451, 118, 1, 85, HookState.Thrown, none⟩, [⟨ItemType.Gold, 90, 120, false⟩], 0, false⟩ : GameState) := by
    rw [show (17 : ℕ) = 16 + 1 from rfl, tickN_succ, t16, s17]
  have s18 : ((⟨⟨400, 50, 60, 40⟩, ⟨451, 118, 1, 85, HookState.Thrown, none⟩, [⟨ItemType.Gold, 90, 120, false⟩], 0, false⟩ : GameState)).update E0 false 1 = (⟨⟨400, 50, 60, 40⟩, ⟨454, 122, 1, 90, HookState.Thrown, none⟩, [⟨ItemType.Gold, 90, 120, false⟩], 0, false⟩ : GameState) := by
    norm_num [GameState.update, Hook.update, Hook.check_collision, scanItems,
      hitTest, Item.size, ITEM_SIZE, HOOK_SPEED, HOOK_LENGTH, E0,
      retracting_ne_idle, thrown_ne_idle, idle_ne_thrown, retracting_ne_thrown]
  have t18 : tickN E0 goldRound 18 = (⟨⟨400, 50, 60, 40⟩, ⟨454, 122, 1, 90, HookState.Thrown, none⟩, [⟨ItemType.Gold, 90, 120, false⟩], 0, false⟩ : GameState) := by
    rw [show (18 : ℕ) = 17 + 1 from rfl, tickN_succ, t17, s18]
  have s19 : ((⟨⟨400, 50, 60, 40⟩, ⟨454, 122, 1, 90, HookState.Thrown, none⟩, [⟨ItemType.Gold, 90, 120, false⟩], 0, false⟩ : GameState)).update E0 false 1 = (⟨⟨400, 50, 60, 40⟩, ⟨457, 126, 1, 95, HookState.Thrown, none⟩, [⟨ItemType.Gold, 90, 120, false⟩], 0, false⟩ : GameState) := by
    norm_num [GameState.update, Hook.update, Hook.check_collision, scanItems,
      hitTest, Item.size, ITEM_SIZE, HOOK_SPEED, HOOK_LENGTH, E0,
      retracting_ne_idle, thrown_ne_idle, idle_ne_thrown, retracting_ne_thrown]
  have t19 : tickN E0 goldRound 19 = (⟨⟨400, 50, 60, 40⟩, ⟨457, 126, 1, 95, HookState.Thrown, none⟩, [⟨ItemType.Gold, 90, 120, false⟩], 0, false⟩ : GameState) := by
    rw [show (19 : ℕ) = 18 + 1 from rfl, tickN_succ, t18, s19]
  have s20 : ((⟨⟨400, 50, 60, 40⟩, ⟨457, 126, 1, 95, HookState.Thrown, none⟩, [⟨ItemType.Gold, 90, 120, false⟩], 0, false⟩ : GameState)).update E0 false 1 = (⟨⟨400, 50, 60, 40⟩, ⟨460, 130, 1, 100, HookState.Thrown, none⟩, [⟨ItemType.Gold, 90, 120, false⟩], 0, false⟩ : GameState) := by
    norm_num [GameState.update, Hook.update, Hook.check_collision, scanItems,
      hitTest, Item.size, ITEM_SIZE, HOOK_SPEED, HOOK_LENGTH, E0,
      retracting_ne_idle, thrown_ne_idle, idle_ne_thrown, retracting_ne_thrown]
  have t20 : tickN E0 goldRound 20 = (⟨⟨400, 50, 60, 40⟩, ⟨460, 130, 1, 100, HookState.Thrown, none⟩, [⟨ItemType.Gold, 90, 120, false⟩], 0, false⟩ : GameState) := by
    rw [show (20 : ℕ) = 19 + 1 from rfl, tickN_succ, t19, s20]
  have s21 : ((⟨⟨400, 50, 60, 40⟩, ⟨460, 130, 1, 100, HookState.Thrown, none⟩, [⟨ItemType.Gold, 90, 120, false⟩], 0, false⟩ : GameState)).update E0 false 1 = (⟨⟨400, 50, 60, 40⟩, ⟨463, 134, 1, 105, HookState.Thrown, none⟩, [⟨ItemType.Gold, 90, 120, false⟩], 0, false⟩ : GameState) := by
    norm_num [GameState.update, Hook.update, Hook.check_collision, scanItems,
      hitTest, Item.size, ITEM_SIZE, HOOK_SPEED, HOOK_LENGTH, E0,
      retracting_ne_idle, thrown_ne_idle, idle_ne_thrown, retracting_ne_thrown]
  have t21 : tickN E0 goldRound 21 = (⟨⟨400, 50, 60, 40⟩, ⟨463, 134, 1, 105, HookState.Thrown, none⟩, [⟨ItemType.Gold, 90, 120, false⟩], 0, false⟩ : GameState) := by
    rw [show (21 : ℕ) = 20 + 1 from rfl, tickN_succ, t20, s21]
  have s22 : ((⟨⟨400, 50, 60, 40⟩, ⟨463, 134, 1, 105, HookState.Thrown, none⟩, [⟨ItemType.Gold, 90, 120, false⟩], 0, false⟩ : GameState)).update E0 false 1 = (⟨⟨400, 50, 60, 40⟩, ⟨466, 138, 1, 110, HookState.Thrown, none⟩, [⟨ItemType.Gold, 90, 120, false⟩], 0, false⟩ : GameState) := by
    norm_num [GameState.update, Hook.update, Hook.check_collision, scanItems,
      hitTest, Item.size, ITEM_SIZE, HOOK_SPEED, HOOK_LENGTH, E0,
      retracting_ne_idle, thrown_ne_idle, idle_ne_thrown, retracting_ne_thrown]
  have t22 : tickN E0 goldRound 22 = (⟨⟨400, 50, 60, 40⟩, ⟨466, 138, 1, 110, HookState.Thrown, none⟩, [⟨ItemType.Gold, 90, 120, false⟩], 0, false⟩ : GameState) := by
    rw [show (22 : ℕ) = 21 + 1 from rfl, tickN_succ, t21, s22]
  have s23 : ((⟨⟨400, 50, 60, 40⟩, ⟨466, 138, 1, 110, HookState.Thrown, none⟩, [⟨ItemType.Gold, 90, 120, false⟩], 0, false⟩ : GameState)).update E0 false 1 = (⟨⟨400, 50, 60, 40⟩, ⟨469, 142, 1, 115, HookState.Thrown, none⟩, [⟨ItemType.Gold, 90, 120, false⟩], 0, false⟩ : GameState) := by
    norm_num [GameState.update, Hook.update, Hook.check_collision, scanItems,
      hitTest, Item.size, ITEM_SIZE, HOOK_SPEED, HOOK_LENGTH, E0,
      retracting_ne_idle, thrown_ne_idle, idle_ne_thrown, retracting_ne_thrown]
  have t23 : tickN E0 goldRound 23 = (⟨⟨400, 50, 60, 40⟩, ⟨469, 142, 1, 115, HookState.Thrown, none⟩, [⟨ItemType.Gold, 90, 120, false⟩], 0, false⟩ : GameState) := by
    rw [show (23 : ℕ) = 22 + 1 from rfl, tickN_succ, t22, s23]
  have s24 : ((⟨⟨400, 50, 60, 40⟩, ⟨469, 142, 1, 115, HookState.Thrown, none⟩, [⟨ItemType.Gold, 90, 120, false⟩], 0, false⟩ : GameState)).update E0 false 1 = (⟨⟨400, 50, 60, 40⟩, ⟨472, 146, 1, 120, HookState.Thrown, none⟩, [⟨ItemType.Gold, 90, 120, false⟩], 0, false⟩ : GameState) := by
    norm_num [GameState.update, Hook.update, Hook.check_collision, scanItems,
      hitTest, Item.size, ITEM_SIZE, HOOK_SPEED, HOOK_LENGTH, E0,
      retracting_ne_idle, thrown_ne_idle, idle_ne_thrown, retracting_ne_thrown]
  have t24 : tickN E0 goldRound 24 = (⟨⟨400, 50, 60, 40⟩, ⟨472, 146, 1, 120, HookState.Thrown, none⟩, [⟨ItemType.Gold, 90, 120, false⟩], 0, false⟩ : GameState) := by
    rw [show (24 : ℕ) = 23 + 1 from rfl, tickN_succ, t23, s24]
  have s25 : ((⟨⟨400, 50, 60, 40⟩, ⟨472, 146, 1, 120, HookState.Thrown, none⟩, [⟨ItemType.Gold, 90, 120, false⟩], 0, false⟩ : GameState)).update E0 false 1 = (⟨⟨400, 50, 60, 40⟩, ⟨475, 150, 1, 125, HookState.Thrown, none⟩, [⟨ItemType.Gold, 90, 120, false⟩], 0, false⟩ : GameState) := by
    norm_num [GameState.update, Hook.update, Hook.check_collision, scanItems,
      hitTest, Item.size, ITEM_SIZE, HOOK_SPEED, HOOK_LENGTH, E0,
      retracting_ne_idle, thrown_ne_idle, idle_ne_thrown, retracting_ne_thrown]
  have t25 : tickN E0 goldRound 25 = (⟨⟨400, 50, 60, 40⟩, ⟨475, 150, 1, 125, HookState.Thrown, none⟩, [⟨ItemType.Gold, 90, 120, false⟩], 0, false⟩ : GameState) := by
    rw [show (25 : ℕ) = 24 + 1 from rfl, tickN_succ, t24, s25]
  have s26 : ((⟨⟨400, 50, 60, 40⟩, ⟨475, 150, 1, 125, HookState.Thrown, none⟩, [⟨ItemType.Gold, 90, 120, false⟩], 0, false⟩ : GameState)).update E0 false 1 = (⟨⟨400, 50, 60, 40⟩, ⟨478, 154, 1, 130, HookState.Thrown, none⟩, [⟨ItemType.Gold, 90, 120, false⟩], 0, false⟩ : GameState) := by
    norm_num [GameState.update, Hook.update, Hook.check_collision, scanItems,
      hitTest, Item.size, ITEM_SIZE, HOOK_SPEED, HOOK_LENGTH, E0,
      retracting_ne_idle, thrown_ne_idle, idle_ne_thrown, retracting_ne_thrown]
  have t26 : tickN E0 goldRound 26 = (⟨⟨400, 50, 60, 40⟩, ⟨478, 154, 1, 130, HookState.Thrown, none⟩, [⟨ItemType.Gold, 90, 120, false⟩], 0, false⟩ : GameState) := by
    rw [show (26 : ℕ) = 25 + 1 from rfl, tickN_succ, t25, s26]
  have s27 : ((⟨⟨400, 50, 60, 40⟩, ⟨478, 154, 1, 130, HookState.Thrown, none⟩, [⟨ItemType.Gold, 90, 120, false⟩], 0, false⟩ : GameState)).update E0 false 1 = (⟨⟨400, 50, 60, 40⟩, ⟨481, 158, 1, 135, HookState.Retracting, some 0⟩, [⟨ItemType.Gold, 90, 120, true⟩], 0, false⟩ : GameState) := by
    norm_num [GameState.update, Hook.update, Hook.check_collision, scanItems,
      hitTest, Item.size, ITEM_SIZE, HOOK_SPEED, HOOK_LENGTH, E0,
      retracting_ne_idle, thrown_ne_idle, idle_ne_thrown, retracting_ne_thrown]
  have t27 : tickN E0 goldRound 27 = (⟨⟨400, 50, 60, 40⟩, ⟨481, 158, 1, 135, HookState.Retracting, some 0⟩, [⟨ItemType.Gold, 90, 120, true⟩], 0, false⟩ : GameState) := by
    rw [show (27 : ℕ) = 26 + 1 from rfl, tickN_succ, t26, s27]
  have s28 : ((⟨⟨400, 50, 60, 40⟩, ⟨481, 158, 1, 135, HookState.Retracting, some 0⟩, [⟨ItemType.Gold, 90, 120, true⟩], 0, false⟩ : GameState)).update E0 false 1 = (⟨⟨400, 50, 60, 40⟩, ⟨478, 154, 1, 130, HookState.Retracting, some 0⟩, [⟨ItemType.Gold, 90, 120, true⟩], 0, false⟩ : GameState) := by
    norm_num [GameState.update, Hook.update, Hook.check_collision, scanItems,
      hitTest, Item.size, ITEM_SIZE, HOOK_SPEED, HOOK_LENGTH, E0,
      retracting_ne_idle, thrown_ne_idle, idle_ne_thrown, retracting_ne_thrown]
  have t28 : tickN E0 goldRound 28 = (⟨⟨400, 50, 60, 40⟩, ⟨478, 154, 1, 130, HookState.Retracting, some 0⟩, [⟨ItemType.Gold, 90, 120, true⟩], 0, false⟩ : GameState) := by
    rw [show (28 : ℕ) = 27 + 1 from rfl, tickN_succ, t27, s28]
  have s29 : ((⟨⟨400, 50, 60, 40⟩, ⟨478, 154, 1, 130, HookState.Retracting, some 0⟩, [⟨ItemType.Gold, 90, 120, true⟩], 0, false⟩ : GameState)).update E0 false 1 = (⟨⟨400, 50, 60, 40⟩, ⟨475, 150, 1, 125, HookState.Retracting, some 0⟩, [⟨ItemType.Gold, 90, 120, true⟩], 0, false⟩ : GameState) := by
    norm_num [GameState.update, Hook.update, Hook.check_collision, scanItems,
      hitTest, Item.size, ITEM_SIZE, HOOK_SPEED, HOOK_LENGTH, E0,
      retracting_ne_idle, thrown_ne_idle, idle_ne_thrown, retracting_ne_thrown]
  have t29 : tickN E0 goldRound 29 = (⟨⟨400, 50, 60, 40⟩, ⟨475, 150, 1, 125, HookState.Retracting, some 0⟩, [⟨ItemType.Gold, 90, 120, true⟩], 0, false⟩ : GameState) := by
    rw [show (29 : ℕ) = 28 + 1 from rfl, tickN_succ, t28, s29]
  have s30 : ((⟨⟨400, 50, 60, 40⟩, ⟨475, 150, 1, 125, HookState.Retracting, some 0⟩, [⟨ItemType.Gold, 90, 120, true⟩], 0, false⟩ : GameState)).update E0 false 1 = (⟨⟨400, 50, 60, 40⟩, ⟨472, 146, 1, 120, HookState.Retracting, some 0⟩, [⟨ItemType.Gold, 90, 120, true⟩], 0, false⟩ : GameState) := by
    norm_num [GameState.update, Hook.update, Hook.check_collision, scanItems,
      hitTest, Item.size, ITEM_SIZE, HOOK_SPEED, HOOK_LENGTH, E0,
      retracting_ne_idle, thrown_ne_idle, idle_ne_thrown, retracting_ne_thrown]
  have t30 : tickN E0 goldRound 30 = (⟨⟨400, 50, 60, 40⟩, ⟨472, 146, 1, 120, HookState.Retracting, some 0⟩, [⟨ItemType.Gold, 90, 120, true⟩], 0, false⟩ : GameState) := by
    rw [show (30 : ℕ) = 29 + 1 from rfl, tickN_succ, t29, s30]
  have s31 : ((⟨⟨400, 50, 60, 40⟩, ⟨472, 146, 1, 120, HookState.Retracting, some 0⟩, [⟨ItemType.Gold, 90, 120, true⟩], 0, false⟩ : GameState)).update E0 false 1 = (⟨⟨400, 50, 60, 40⟩, ⟨469, 142, 1, 115, HookState.Retracting, some 0⟩, [⟨ItemType.Gold, 90, 120, true⟩], 0, false⟩ : GameState) := by
    norm_num [GameState.update, Hook.update, Hook.check_collision, scanItems,
      hitTest, Item.size, ITEM_SIZE, HOOK_SPEED, HOOK_LENGTH, E0,
      retracting_ne_idle, thrown_ne_idle, idle_ne_thrown, retracting_ne_thrown]
  have t31 : tickN E0 goldRound 31 = (⟨⟨400, 50, 60, 40⟩, ⟨469, 142, 1, 115, HookState.Retracting, some 0⟩, [⟨ItemType.Gold, 90, 120, true⟩], 0, false⟩ : GameState) := by
    rw [show (31 : ℕ) = 30 + 1 from rfl, tickN_succ, t30, s31]
  have s32 : ((⟨⟨400, 50, 60, 40⟩, ⟨469, 142, 1, 115, HookState.Retracting, some 0⟩, [⟨ItemType.Gold, 90, 120, true⟩], 0, false⟩ : GameState)).update E0 false 1 = (⟨⟨400, 50, 60, 40⟩, ⟨466, 138, 1, 110, HookState.Retracting, some 0⟩, [⟨ItemType.Gold, 90, 120, true⟩], 0, false⟩ : GameState) := by
    norm_num [GameState.update, Hook.update, Hook.check_collision, scanItems,
      hitTest, Item.size, ITEM_SIZE, HOOK_SPEED, HOOK_LENGTH, E0,
      retracting_ne_idle, thrown_ne_idle, idle_ne_thrown, retracting_ne_thrown]
  have t32 : tickN E0 goldRound 32 = (⟨⟨400, 50, 60, 40⟩, ⟨466, 138, 1, 110, HookState.Retracting, some 0⟩, [⟨ItemType.Gold, 90, 120, true⟩], 0, false⟩ : GameState) := by
    rw [show (32 : ℕ) = 31 + 1 from rfl, tickN_succ, t31, s32]
  have s33 : ((⟨⟨400, 50, 60, 40⟩, ⟨466, 138, 1, 110, HookState.Retracting, some 0⟩, [⟨ItemType.Gold, 90, 120, true⟩], 0, false⟩ : GameState)).update E0 false 1 = (⟨⟨400, 50, 60, 40⟩, ⟨463, 134, 1, 105, HookState.Retracting, some 0⟩, [⟨ItemType.Gold, 90, 120, true⟩], 0, false⟩ : GameState) := by
    norm_num [GameState.update, Hook.update, Hook.check_collision, scanItems,
      hitTest, Item.size, ITEM_SIZE, HOOK_SPEED, HOOK_LENGTH, E0,
      retracting_ne_idle, thrown_ne_idle, idle_ne_thrown, retracting_ne_thrown]
  have t33 : tickN E0 goldRound 33 = (⟨⟨400, 50, 60, 40⟩, ⟨463, 134, 1, 105, HookState.Retracting, some 0⟩, [⟨ItemType.Gold, 90, 120, true⟩], 0, false⟩ : GameState) := by
    rw [show (33 : ℕ) = 32 + 1 from rfl, tickN_succ, t32, s33]
  have s34 : ((⟨⟨400, 50, 60, 40⟩, ⟨463, 134, 1, 105, HookState.Retracting, some 0⟩, [⟨ItemType.Gold, 90, 120, true⟩], 0, false⟩ : GameState)).update E0 false 1 = (⟨⟨400, 50, 60, 40⟩, ⟨460, 130, 1, 100, HookState.Retracting, some 0⟩, [⟨ItemType.Gold, 90, 120, true⟩], 0, false⟩ : GameState) := by
    norm_num [GameState.update, Hook.update, Hook.check_collision, scanItems,
      hitTest, Item.size, ITEM_SIZE, HOOK_SPEED, HOOK_LENGTH, E0,
      retracting_ne_idle, thrown_ne_idle, idle_ne_thrown, retracting_ne_thrown]
  have t34 : tickN E0 goldRound 34 = (⟨⟨400, 50, 60, 40⟩, ⟨460, 130, 1, 100, HookState.Retracting, some 0⟩, [⟨ItemType.Gold, 90, 120, true⟩], 0, false⟩ : GameState) := by
    rw [show (34 : ℕ) = 33 + 1 from rfl, tickN_succ, t33, s34]
  have s35 : ((⟨⟨400, 50, 60, 40⟩, ⟨460, 130, 1, 100, HookState.Retracting, some 0⟩, [⟨ItemType.Gold, 90, 120, true⟩], 0, false⟩ : GameState)).update E0 false 1 = (⟨⟨400, 50, 60, 40⟩, ⟨457, 126, 1, 95, HookState.Retracting, some 0⟩, [⟨ItemType.Gold, 90, 120, true⟩], 0, false⟩ : GameState) := by
    norm_num [GameState.update, Hook.update, Hook.check_collision, scanItems,
      hitTest, Item.size, ITEM_SIZE, HOOK_SPEED, HOOK_LENGTH, E0,
      retracting_ne_idle, thrown_ne_idle, idle_ne_thrown, retracting_ne_thrown]
  have t35 : tickN E0 goldRound 35 = (⟨⟨400, 50, 60, 40⟩, ⟨457, 126, 1, 95, HookState.Retracting, some 0⟩, [⟨ItemType.Gold, 90, 120, true⟩], 0, false⟩ : GameState) := by
    rw [show (35 : ℕ) = 34 + 1 from rfl, tickN_succ, t34, s35]
  have s36 : ((⟨⟨400, 50, 60, 40⟩, ⟨457, 126, 1, 95, HookState.Retracting, some 0⟩, [⟨ItemType.Gold, 90, 120, true⟩], 0, false⟩ : GameState)).update E0 false 1 = (⟨⟨400, 50, 60, 40⟩, ⟨454, 122, 1, 90, HookState.Retracting, some 0⟩, [⟨ItemType.Gold, 90, 120, true⟩], 0, false⟩ : GameState) := by
    norm_num [GameState.update, Hook.update, Hook.check_collision, scanItems,
      hitTest, Item.size, ITEM_SIZE, HOOK_SPEED, HOOK_LENGTH, E0,
      retracting_ne_idle, thrown_ne_idle, idle_ne_thrown, retracting_ne_thrown]
  have t36 : tickN E0 goldRound 36 = (⟨⟨400, 50, 60, 40⟩, ⟨454, 122, 1, 90, HookState.Retracting, some 0⟩, [⟨ItemType.Gold, 90, 120, true⟩], 0, false⟩ : GameState) := by
    rw [show (36 : ℕ) = 35 + 1 from rfl, tickN_succ, t35, s36]
  have s37 : ((⟨⟨400, 50, 60, 40⟩, ⟨454, 122, 1, 90, HookState.Retracting, some 0⟩, [⟨ItemType.Gold, 90, 120, true⟩], 0, false⟩ : GameState)).update E0 false 1 = (⟨⟨400, 50, 60, 40⟩, ⟨451, 118, 1, 85, HookState.Retracting, some 0⟩, [⟨ItemType.Gold, 90, 120, true⟩], 0, false⟩ : GameState) := by
    norm_num [GameState.update, Hook.update, Hook.check_collision, scanItems,
      hitTest, Item.size, ITEM_SIZE, HOOK_SPEED, HOOK_LENGTH, E0,
      retracting_ne_idle, thrown_ne_idle, idle_ne_thrown, retracting_ne_thrown]
  have t37 : tickN E0 goldRound 37 = (⟨⟨400, 50, 60, 40⟩, ⟨451, 118, 1, 85, HookState.Retracting, some 0⟩, [⟨ItemType.Gold, 90, 120, true⟩], 0, false⟩ : GameState) := by
    rw [show (37 : ℕ) = 36 + 1 from rfl, tickN_succ, t36, s37]
  have s38 : ((⟨⟨400, 50, 60, 40⟩, ⟨451, 118, 1, 85, HookState.Retracting, some 0⟩, [⟨ItemType.Gold, 90, 120, true⟩], 0, false⟩ : GameState)).update E0 false 1 = (⟨⟨400, 50, 60, 40⟩, ⟨448, 114, 1, 80, HookState.Retracting, some 0⟩, [⟨ItemType.Gold, 90, 120, true⟩], 0, false⟩ : GameState) := by
    norm_num [GameState.update, Hook.update, Hook.check_collision, scanItems,
      hitTest, Item.size, ITEM_SIZE, HOOK_SPEED, HOOK_LENGTH, E0,
      retracting_ne_idle, thrown_ne_idle, idle_ne_thrown, retracting_ne_thrown]
  have t38 : tickN E0 goldRound 38 = (⟨⟨400, 50, 60, 40⟩, ⟨448, 114, 1, 80, HookState.Retracting, some 0⟩, [⟨ItemType.Gold, 90, 120, true⟩], 0, false⟩ : GameState) := by
    rw [show (38 : ℕ) = 37 + 1 from rfl, tickN_succ, t37, s38]
  have s39 : ((⟨⟨400, 50, 60, 40⟩, ⟨448, 114, 1, 80, HookState.Retracting, some 0⟩, [⟨ItemType.Gold, 90, 120, true⟩], 0, false⟩ : GameState)).update E0 false 1 = (⟨⟨400, 50, 60, 40⟩, ⟨445, 110, 1, 75, HookState.Retracting, some 0⟩, [⟨ItemType.Gold, 90, 120, true⟩], 0, false⟩ : GameState) := by
    norm_num [GameState.update, Hook.update, Hook.check_collision, scanItems,
      hitTest, Item.size, ITEM_SIZE, HOOK_SPEED, HOOK_LENGTH, E0,
      retracting_ne_idle, thrown_ne_idle, idle_ne_thrown, retracting_ne_thrown]
  have t39 : tickN E0 goldRound 39 = (⟨⟨400, 50, 60, 40⟩, ⟨445, 110, 1, 75, HookState.Retracting, some 0⟩, [⟨ItemType.Gold, 90, 120, true⟩], 0, false⟩ : GameState) := by
    rw [show (39 : ℕ) = 38 + 1 from rfl, tickN_succ, t38, s39]
  have s40 : ((⟨⟨400, 50, 60, 40⟩, ⟨445, 110, 1, 75, HookState.Retracting, some 0⟩, [⟨ItemType.Gold, 90, 120, true⟩], 0, false⟩ : GameState)).update E0 false 1 = (⟨⟨400, 50, 60, 40⟩, ⟨442, 106, 1, 70, HookState.Retracting, some 0⟩, [⟨ItemType.Gold, 90, 120, true⟩], 0, false⟩ : GameState) := by
    norm_num [GameState.update, Hook.update, Hook.check_collision, scanItems,
      hitTest, Item.size, ITEM_SIZE, HOOK_SPEED, HOOK_LENGTH, E0,
      retracting_ne_idle, thrown_ne_idle, idle_ne_thrown, retracting_ne_thrown]
  have t40 : tickN E0 goldRound 40 = (⟨⟨400, 50, 60, 40⟩, ⟨442, 106, 1, 70, HookState.Retracting, some 0⟩, [⟨ItemType.Gold, 90, 120, true⟩], 0, false⟩ : GameState) := by
    rw [show (40 : ℕ) = 39 + 1 from rfl, tickN_succ, t39, s40]
  have s41 : ((⟨⟨400, 50, 60, 40⟩, ⟨442, 106, 1, 70, HookState.Retracting, some 0⟩, [⟨ItemType.Gold, 90, 120, true⟩], 0, false⟩ : GameState)).update E0 false 1 = (⟨⟨400, 50, 60, 40⟩, ⟨439, 102, 1, 65, HookState.Retracting, some 0⟩, [⟨ItemType.Gold, 90, 120, true⟩], 0, false⟩ : GameState) := by
    norm_num [GameState.update, Hook.update, Hook.check_collision, scanItems,
      hitTest, Item.size, ITEM_SIZE, HOOK_SPEED, HOOK_LENGTH, E0,
      retracting_ne_idle, thrown_ne_idle, idle_ne_thrown, retracting_ne_thrown]
  have t41 : tickN E0 goldRound 41 = (⟨⟨400, 50, 60, 40⟩, ⟨439, 102, 1, 65, HookState.Retracting, some 0⟩, [⟨ItemType.Gold, 90, 120, true⟩], 0, false⟩ : GameState) := by
    rw [show (41 : ℕ) = 40 + 1 from rfl, tickN_succ, t40, s41]
  have s42 : ((⟨⟨400, 50, 60, 40⟩, ⟨439, 102, 1, 65, HookState.Retracting, some 0⟩, [⟨ItemType.Gold, 90, 120, true⟩], 0, false⟩ : GameState)).update E0 false 1 = (⟨⟨400, 50, 60, 40⟩, ⟨436, 98, 1, 60, HookState.Retracting, some 0⟩, [⟨ItemType.Gold, 90, 120, true⟩], 0, false⟩ : GameState) := by
    norm_num [GameState.update, Hook.update, Hook.check_collision, scanItems,
      hitTest, Item.size, ITEM_SIZE, HOOK_SPEED, HOOK_LENGTH, E0,
      retracting_ne_idle, thrown_ne_idle, idle_ne_thrown, retracting_ne_thrown]
  have t42 : tickN E0 goldRound 42 = (⟨⟨400, 50, 60, 40⟩, ⟨436, 98, 1, 60, HookState.Retracting, some 0⟩, [⟨ItemType.Gold, 90, 120, true⟩], 0, false⟩ : GameState) := by
    rw [show (42 : ℕ) = 41 + 1 from rfl, tickN_succ, t41, s42]
  have s43 : ((⟨⟨400, 50, 60, 40⟩, ⟨436, 98, 1, 60, HookState.Retracting, some 0⟩, [⟨ItemType.Gold, 90, 120, true⟩], 0, false⟩ : GameState)).update E0 false 1 = (⟨⟨400, 50, 60, 40⟩, ⟨433, 94, 1, 55, HookState.Retracting, some 0⟩, [⟨ItemType.Gold, 90, 120, true⟩], 0, false⟩ : GameState) := by
    norm_num [GameState.update, Hook.update, Hook.check_collision, scanItems,
      hitTest, Item.size, ITEM_SIZE, HOOK_SPEED, HOOK_LENGTH, E0,
      retracting_ne_idle, thrown_ne_idle, idle_ne_thrown, retracting_ne_thrown]
  have t43 : tickN E0 goldRound 43 = (⟨⟨400, 50, 60, 40⟩, ⟨433, 94, 1, 55, HookState.Retracting, some 0⟩, [⟨ItemType.Gold, 90, 120, true⟩], 0, false⟩ : GameState) := by
    rw [show (43 : ℕ) = 42 + 1 from rfl, tickN_succ, t42, s43]
  have s44 : ((⟨⟨400, 50, 60, 40⟩, ⟨433, 94, 1, 55, HookState.Retracting, some 0⟩, [⟨ItemType.Gold, 90, 120, true⟩], 0, false⟩ : GameState)).update E0 false 1 = (⟨⟨400, 50, 60, 40⟩, ⟨430, 90, 1, 50, HookState.Retracting, some 0⟩, [⟨ItemType.Gold, 90, 120, true⟩], 0, false⟩ : GameState) := by
    norm_num [GameState.update, Hook.update, Hook.check_collision, scanItems,
      hitTest, Item.size, ITEM_SIZE, HOOK_SPEED, HOOK_LENGTH, E0,
      retracting_ne_idle, thrown_ne_idle, idle_ne_thrown, retracting_ne_thrown]
  have t44 : tickN E0 goldRound 44 = (⟨⟨400, 50, 60, 40⟩, ⟨430, 90, 1, 50, HookState.Retracting, some 0⟩, [⟨ItemType.Gold, 90, 120, true⟩], 0, false⟩ : GameState) := by
    rw [show (44 : ℕ) = 43 + 1 from rfl, tickN_succ, t43, s44]
  have s45 : ((⟨⟨400, 50, 60, 40⟩, ⟨430, 90, 1, 50, HookState.Retracting, some 0⟩, [⟨ItemType.Gold, 90, 120, true⟩], 0, false⟩ : GameState)).update E0 false 1 = (⟨⟨400, 50, 60, 40⟩, ⟨427, 86, 1, 45, HookState.Retracting, some 0⟩, [⟨ItemType.Gold, 90, 120, true⟩], 0, false⟩ : GameState) := by
    norm_num [GameState.update, Hook.update, Hook.check_collision, scanItems,
      hitTest, Item.size, ITEM_SIZE, HOOK_SPEED, HOOK_LENGTH, E0,
      retracting_ne_idle, thrown_ne_idle, idle_ne_thrown, retracting_ne_thrown]
  have t45 : tickN E0 goldRound 45 = (⟨⟨400, 50, 60, 40⟩, ⟨427, 86, 1, 45, HookState.Retracting, some 0⟩, [⟨ItemType.Gold, 90, 120, true⟩], 0, false⟩ : GameState) := by
    rw [show (45 : ℕ) = 44 + 1 from rfl, tickN_succ, t44, s45]
  have s46 : ((⟨⟨400, 50, 60, 40⟩, ⟨427, 86, 1, 45, HookState.Retracting, some 0⟩, [⟨ItemType.Gold, 90, 120, true⟩], 0, false⟩ : GameState)).update E0 false 1 = (⟨⟨400, 50, 60, 40⟩, ⟨424, 82, 1, 40, HookState.Retracting, some 0⟩, [⟨ItemType.Gold, 90, 120, true⟩], 0, false⟩ : GameState) := by
    norm_num [GameState.update, Hook.update, Hook.check_collision, scanItems,
      hitTest, Item.size, ITEM_SIZE, HOOK_SPEED, HOOK_LENGTH, E0,
      retracting_ne_idle, thrown_ne_idle, idle_ne_thrown, retracting_ne_thrown]
  have t46 : tickN E0 goldRound 46 = (⟨⟨400, 50, 60, 40⟩, ⟨424, 82, 1, 40, HookState.Retracting, some 0⟩, [⟨ItemType.Gold, 90, 120, true⟩], 0, false⟩ : GameState) := by
    rw [show (46 : ℕ) = 45 + 1 from rfl, tickN_succ, t45, s46]
  have s47 : ((⟨⟨400, 50, 60, 40⟩, ⟨424, 82, 1, 40, HookState.Retracting, some 0⟩, [⟨ItemType.Gold, 90, 120, true⟩], 0, false⟩ : GameState)).update E0 false 1 = (⟨⟨400, 50, 60, 40⟩, ⟨421, 78, 1, 35, HookState.Retracting, some 0⟩, [⟨ItemType.Gold, 90, 120, true⟩], 0, false⟩ : GameState) := by
    norm_num [GameState.update, Hook.update, Hook.check_collision, scanItems,
      hitTest, Item.size, ITEM_SIZE, HOOK_SPEED, HOOK_LENGTH, E0,
      retracting_ne_idle, thrown_ne_idle, idle_ne_thrown, retracting_ne_thrown]
  have t47 : tickN E0 goldRound 47 = (⟨⟨400, 50, 60, 40⟩, ⟨421, 78, 1, 35, HookState.Retracting, some 0⟩, [⟨ItemType.Gold, 90, 120, true⟩], 0, false⟩ : GameState) := by
    rw [show (47 : ℕ) = 46 + 1 from rfl, tickN_succ, t46, s47]
  have s48 : ((⟨⟨400, 50, 60, 40⟩, ⟨421, 78, 1, 35, HookState.Retracting, some 0⟩, [⟨ItemType.Gold, 90, 120, true⟩], 0, false⟩ : GameState)).update E0 false 1 = (⟨⟨400, 50, 60, 40⟩, ⟨418, 74, 1, 30, HookState.Retracting, some 0⟩, [⟨ItemType.Gold, 90, 120, true⟩], 0, false⟩ : GameState) := by
    norm_num [GameState.update, Hook.update, Hook.check_collision, scanItems,
      hitTest, Item.size, ITEM_SIZE, HOOK_SPEED, HOOK_LENGTH, E0,
      retracting_ne_idle, thrown_ne_idle, idle_ne_thrown, retracting_ne_thrown]
  have t48 : tickN E0 goldRound 48 = (⟨⟨400, 50, 60, 40⟩, ⟨418, 74, 1, 30, HookState.Retracting, some 0⟩, [⟨ItemType.Gold, 90, 120, true⟩], 0, false⟩ : GameState) := by
    rw [show (48 : ℕ) = 47 + 1 from rfl, tickN_succ, t47, s48]
  have s49 : ((⟨⟨400, 50, 60, 40⟩, ⟨418, 74, 1, 30, HookState.Retracting, some 0⟩, [⟨ItemType.Gold, 90, 120, true⟩], 0, false⟩ : GameState)).update E0 false 1 = (⟨⟨400, 50, 60, 40⟩, ⟨415, 70, 1, 25, HookState.Retracting, some 0⟩, [⟨ItemType.Gold, 90, 120, true⟩], 0, false⟩ : GameState) := by
    norm_num [GameState.update, Hook.update, Hook.check_collision, scanItems,
      hitTest, Item.size, ITEM_SIZE, HOOK_SPEED, HOOK_LENGTH, E0,
      retracting_ne_idle, thrown_ne_idle, idle_ne_thrown, retracting_ne_thrown]
  have t49 : tickN E0 goldRound 49 = (⟨⟨400, 50, 60, 40⟩, ⟨415, 70, 1, 25, HookState.Retracting, some 0⟩, [⟨ItemType.Gold, 90, 120, true⟩], 0, false⟩ : GameState) := by
    rw [show (49 : ℕ) = 48 + 1 from rfl, tickN_succ, t48, s49]
  have s50 : ((⟨⟨400, 50, 60, 40⟩, ⟨415, 70, 1, 25, HookState.Retracting, some 0⟩, [⟨ItemType.Gold, 90, 120, true⟩], 0, false⟩ : GameState)).update E0 false 1 = (⟨⟨400, 50, 60, 40⟩, ⟨412, 66, 1, 20, HookState.Retracting, some 0⟩, [⟨ItemType.Gold, 90, 120, true⟩], 0, false⟩ : GameState) := by
    norm_num [GameState.update, Hook.update, Hook.check_collision, scanItems,
      hitTest, Item.size, ITEM_SIZE, HOOK_SPEED, HOOK_LENGTH, E0,
      retracting_ne_idle, thrown_ne_idle, idle_ne_thrown, retracting_ne_thrown]
  have t50 : tickN E0 goldRound 50 = (⟨⟨400, 50, 60, 40⟩, ⟨412, 66, 1, 20, HookState.Retracting, some 0⟩, [⟨ItemType.Gold, 90, 120, true⟩], 0, false⟩ : GameState) := by
    rw [show (50 : ℕ) = 49 + 1 from rfl, tickN_succ, t49, s50]
  have s51 : ((⟨⟨400, 50, 60, 40⟩, ⟨412, 66, 1, 20, HookState.Retracting, some 0⟩, [⟨ItemType.Gold, 90, 120, true⟩], 0, false⟩ : GameState)).update E0 false 1 = (⟨⟨400, 50, 60, 40⟩, ⟨409, 62, 1, 15, HookState.Retracting, some 0⟩, [⟨ItemType.Gold, 90, 120, true⟩], 0, false⟩ : GameState) := by
    norm_num [GameState.update, Hook.update, Hook.check_collision, scanItems,
      hitTest, Item.size, ITEM_SIZE, HOOK_SPEED, HOOK_LENGTH, E0,
      retracting_ne_idle, thrown_ne_idle, idle_ne_thrown, retracting_ne_thrown]
  have t51 : tickN E0 goldRound 51 = (⟨⟨400, 50, 60, 40⟩, ⟨409, 62, 1, 15, HookState.Retracting, some 0⟩, [⟨ItemType.Gold, 90, 120, true⟩], 0, false⟩ : GameState) := by
    rw [show (51 : ℕ) = 50 + 1 from rfl, tickN_succ, t50, s51]
  have s52 : ((⟨⟨400, 50, 60, 40⟩, ⟨409, 62, 1, 15, HookState.Retracting, some 0⟩, [⟨ItemType.Gold, 90, 120, true⟩], 0, false⟩ : GameState)).update E0 false 1 = (⟨⟨400, 50, 60, 40⟩, ⟨406, 58, 1, 10, HookState.Retracting, some 0⟩, [⟨ItemType.Gold, 90, 120, true⟩], 0, false⟩ : GameState) := by
    norm_num [GameState.update, Hook.update, Hook.check_collision, scanItems,
      hitTest, Item.size, ITEM_SIZE, HOOK_SPEED, HOOK_LENGTH, E0,
      retracting_ne_idle, thrown_ne_idle, idle_ne_thrown, retracting_ne_thrown]
  have t52 : tickN E0 goldRound 52 = (⟨⟨400, 50, 60, 40⟩, ⟨406, 58, 1, 10, HookState.Retracting, some 0⟩, [⟨ItemType.Gold, 90, 120, true⟩], 0, false⟩ : GameState) := by
    rw [show (52 : ℕ) = 51 + 1 from rfl, tickN_succ, t51, s52]
  have s53 : ((⟨⟨400, 50, 60, 40⟩, ⟨406, 58, 1, 10, HookState.Retracting, some 0⟩, [⟨ItemType.Gold, 90, 120, true⟩], 0, false⟩ : GameState)).update E0 false 1 = (⟨⟨400, 50, 60, 40⟩, ⟨403, 54, 1, 5, HookState.Retracting, some 0⟩, [⟨ItemType.Gold, 90, 120, true⟩], 0, false⟩ : GameState) := by
    norm_num [GameState.update, Hook.update, Hook.check_collision, scanItems,
      hitTest, Item.size, ITEM_SIZE, HOOK_SPEED, HOOK_LENGTH, E0,
      retracting_ne_idle, thrown_ne_idle, idle_ne_thrown, retracting_ne_thrown]
  have t53 : tickN E0 goldRound 53 = (⟨⟨400, 50, 60, 40⟩, ⟨403, 54, 1, 5, HookState.Retracting, some 0⟩, [⟨ItemType.Gold, 90, 120, true⟩], 0, false⟩ : GameState) := by
    rw [show (53 : ℕ) = 52 + 1 from rfl, tickN_succ, t52, s53]
  have s54 : ((⟨⟨400, 50, 60, 40⟩, ⟨403, 54, 1, 5, HookState.Retracting, some 0⟩, [⟨ItemType.Gold, 90, 120, true⟩], 0, false⟩ : GameState)).update E0 false 1 = (⟨⟨400, 50, 60, 40⟩, ⟨400, 50, 1, 0, HookState.Idle, none⟩, [⟨ItemType.Gold, 90, 120, true⟩], 0, false⟩ : GameState) := by
    norm_num [GameState.update, Hook.update, Hook.check_collision, scanItems,
      hitTest, Item.size, ITEM_SIZE, HOOK_SPEED, HOOK_LENGTH, E0,
      retracting_ne_idle, thrown_ne_idle, idle_ne_thrown, retracting_ne_thrown]
  have t54 : tickN E0 goldRound 54 = (⟨⟨400, 50, 60, 40⟩, ⟨400, 50, 1, 0, HookState.Idle, none⟩, [⟨ItemType.Gold, 90, 120, true⟩], 0, false⟩ : GameState) := by
    rw [show (54 : ℕ) = 53 + 1 from rfl, tickN_succ, t53, s54]
  refine ⟨hscore, ?_, ?_, ?_, ?_, ?_, ?_, ?_, ?_, ?_⟩ <;>
    simp [t27, t53, t54]

/-- C1, witness: the universally quantified part of
`C1_scoring_branch_dead` applied at the initial state. -/
theorem C1_scoring_branch_dead_witness : (GameState.new E0 []).score = 0 :=
  C1_scoring_branch_dead.1 (GameState.new E0 []) (Reachable.init [])

/-- C2, counterexample: the claim wants the hook position to equal
`(miner.x + cos(angle)·length, miner.y + sin(angle)·length)` at every
observation point after a controller tick.  A tick that ends the round
returns before the position rewrite, so a miner move made mid-throw is
never folded in: after the round-over tick below the stored hook `posX` is
`410`, while the formula gives `395 + cos(0)·10 = 405`. -/
theorem C2_stale_position_after_over_tick :
    Reachable E0 (staleRound.update E0 true 1) ∧
    (staleRound.update E0 true 1).game_over = true ∧
    (staleRound.update E0 true 1).hook.posX ≠
      (staleRound.update E0 true 1).miner.posX +
        E0.cos (staleRound.update E0 true 1).hook.angle *
          (staleRound.update E0 true 1).hook.length := by
  have e0 : GameState.new E0 [(ItemType.Gold, 400, 500)] =
      (⟨⟨400, 50, 60, 40⟩, ⟨400, 50, 2, 0, HookState.Idle, none⟩,
        [⟨ItemType.Gold, 400, 500, false⟩], 0, false⟩ : GameState) := by
    norm_num [GameState.new, Hook.new, Miner.new, Item.new, MINER_WIDTH,
      MINER_HEIGHT, SCREEN_WIDTH, E0]
  have e1 : ((⟨⟨400, 50, 60, 40⟩, ⟨400, 50, 2, 0, HookState.Idle, none⟩,
        [⟨ItemType.Gold, 400, 500, false⟩], 0, false⟩ : GameState)).key_down_event
        Key.space 0 =
      (⟨⟨400, 50, 60, 40⟩, ⟨400, 50, 0, 0, HookState.Thrown, none⟩,
        [⟨ItemType.Gold, 400, 500, false⟩], 0, false⟩ : GameState) := by
    norm_num [GameState.key_down_event, Hook.throw]
  have e2 : ((⟨⟨400, 50, 60, 40⟩, ⟨400, 50, 0, 0, HookState.Thrown, none⟩,
        [⟨ItemType.Gold, 400, 500, false⟩], 0, false⟩ : GameState)).update E0 false 1 =
      (⟨⟨400, 50, 60, 40⟩, ⟨405, 50, 0, 5, HookState.Thrown, none⟩,
        [⟨ItemType.Gold, 400, 500, false⟩], 0, false⟩ : GameState) := by
    norm_num [GameState.update, Hook.update, Hook.check_collision, scanItems,
      hitTest, Item.size, ITEM_SIZE, HOOK_SPEED, HOOK_LENGTH, E0,
      retracting_ne_idle, thrown_ne_idle, idle_ne_thrown, retracting_ne_thrown]
  have e3 : ((⟨⟨400, 50, 60, 40⟩, ⟨405, 50, 0, 5, HookState.Thrown, none⟩,
        [⟨ItemType.Gold, 400, 500, false⟩], 0, false⟩ : GameState)).update E0 false 1 =
      (⟨⟨400, 50, 60, 40⟩, ⟨410, 50, 0, 10, HookState.Thrown, none⟩,
        [⟨ItemType.Gold, 400, 500, false⟩], 0, false⟩ : GameState) := by
    norm_num [GameState.update, Hook.update, Hook.check_collision, scanItems,
      hitTest, Item.size, ITEM_SIZE, HOOK_SPEED, HOOK_LENGTH, E0,
      retracting_ne_idle, thrown_ne_idle, idle_ne_thrown, retracting_ne_thrown]
  have e4 : ((⟨⟨400, 50, 60, 40⟩, ⟨410, 50, 0, 10, HookState.Thrown, none⟩,
        [⟨ItemType.Gold, 400, 500, false⟩], 0, false⟩ : GameState)).key_down_event
        Key.left 0 =
      (⟨⟨395, 50, 60, 40⟩, ⟨410, 50, 0, 10, HookState.Thrown, none⟩,
        [⟨ItemType.Gold, 400, 500, false⟩], 0, false⟩ : GameState) := by
    norm_num [GameState.key_down_event, Miner.move_left]
  have hs : staleRound =
      (⟨⟨395, 50, 60, 40⟩, ⟨410, 50, 0, 10, HookState.Thrown, none⟩,
        [⟨ItemType.Gold, 400, 500, false⟩], 0, false⟩ : GameState) := by
    unfold staleRound
    rw [e0, e1, e2, e3, e4]
  have e5 : staleRound.update E0 true 1 =
      (⟨⟨395, 50, 60, 40⟩, ⟨410, 50, 0, 10, HookState.Thrown, none⟩,
        [⟨ItemType.Gold, 400, 500, false⟩], 0, true⟩ : GameState) := by
    rw [hs]
    norm_num [GameState.update]
  refine ⟨?_, ?_, ?_⟩
  · exact Reachable.tick (Reachable.key (Reachable.tick (Reachable.tick
      (Reachable.key (Reachable.init _) Key.space 0) false 1) false 1)
      Key.left 0) true 1
  · rw [e5]
  · rw [e5]
    norm_num [E0]

/-- C2, amended: after every controller tick that runs the full update —
the round not already over, the time not up on that tick — the hook's
stored position equals
`(miner.x + cos(angle)·length, miner.y + sin(angle)·length)`; on the ticks
that return early (the round already over, or ending this tick) the stored
position can be stale, as `C2_stale_position_after_over_tick` shows. -/
theorem C2_position_derived_after_full_tick (E : FloatEnv) (s : GameState)
    (dt : ℚ) (hov : s.game_over = false) :
    (s.update E false dt).hook.posX =
      (s.update E false dt).miner.posX +
        E.cos (s.update E false dt).hook.angle * (s.update E false dt).hook.length ∧
    (s.update E false dt).hook.posY =
      (s.update E false dt).miner.posY +
        E.sin (s.update E false dt).hook.angle * (s.update E false dt).hook.length := by
  simp [GameState.update, hov]

/-- C2, witness: the amended statement at the initial state. -/
theorem C2_position_derived_after_full_tick_witness :
    ((GameState.new E0 []).update E0 false 1).hook.posX =
      ((GameState.new E0 []).update E0 false 1).miner.posX +
        E0.cos ((GameState.new E0 []).update E0 false 1).hook.angle *
          ((GameState.new E0 []).update E0 false 1).hook.length ∧
    ((GameState.new E0 []).update E0 false 1).hook.posY =
      ((GameState.new E0 []).update E0 false 1).miner.posY +
        E0.sin ((GameState.new E0 []).update E0 false 1).hook.angle *
          ((GameState.new E0 []).update E0 false 1).hook.length :=
  C2_position_derived_after_full_tick E0 (GameState.new E0 []) 1 rfl

/-- C3: within a running tick, the tip that `check_collision` tests is the
position stored by `Hook::update`, which is exactly
`(cos(angle)·length, sin(angle)·length)` with no miner offset; the item
outcome of the tick is the collision scan against that tip; and the miner's
coordinates are added to the stored hook position only afterwards, in the
final rewrite of the tick. -/
theorem C3_collision_tip_has_no_miner_offset (E : FloatEnv) (s : GameState)
    (dt : ℚ) (hov : s.game_over = false) :
    (s.hook.update E dt).posX =
      E.cos (s.hook.update E dt).angle * (s.hook.update E dt).length ∧
    (s.hook.update E dt).posY =
      E.sin (s.hook.update E dt).angle * (s.hook.update E dt).length ∧
    (s.update E false dt).items = ((s.hook.update E dt).check_collision s.items).2 ∧
    (s.update E false dt).hook.posX =
      s.miner.posX +
        E.cos (s.update E false dt).hook.angle * (s.update E false dt).hook.length ∧
    (s.update E false dt).hook.posY =
      s.miner.posY +
        E.sin (s.update E false dt).hook.angle * (s.update E false dt).hook.length := by
  refine ⟨?_, ?_, ?_, ?_, ?_⟩
  · cases hst : s.hook.state with
    | Idle => rw [update_eq_of_idle E dt hst]
    | Thrown =>
        rw [update_eq_of_thrown E dt hst]
        by_cases hmax : HOOK_LENGTH ≤ s.hook.length + HOOK_SPEED
        · rw [if_pos hmax]
        · rw [if_neg hmax]
    | Retracting =>
        rw [update_eq_of_retracting E dt hst]
        by_cases hzero : s.hook.length - HOOK_SPEED ≤ 0
        · rw [if_pos hzero]
        · rw [if_neg hzero]
  · cases hst : s.hook.state with
    | Idle => rw [update_eq_of_idle E dt hst]
    | Thrown =>
        rw [update_eq_of_thrown E dt hst]
        by_cases hmax : HOOK_LENGTH ≤ s.hook.length + HOOK_SPEED
        · rw [if_pos hmax]
        · rw [if_neg hmax]
    | Retracting =>
        rw [update_eq_of_retracting E dt hst]
        by_cases hzero : s.hook.length - HOOK_SPEED ≤ 0
        · rw [if_pos hzero]
        · rw [if_neg hzero]
  · simp [GameState.update, hov]
  · simp [GameState.update, hov]
  · simp [GameState.update, hov]

/-- C3, witness: the statement at the initial state. -/
theorem C3_collision_tip_has_no_miner_offset_witness :
    ((GameState.new E0 []).hook.update E0 1).posX =
      E0.cos ((GameState.new E0 []).hook.update E0 1).angle *
        ((GameState.new E0 []).hook.update E0 1).length ∧
    ((GameState.new E0 []).hook.update E0 1).posY =
      E0.sin ((GameState.new E0 []).hook.update E0 1).angle *
        ((GameState.new E0 []).hook.update E0 1).length ∧
    ((GameState.new E0 []).update E0 false 1).items =
      (((GameState.new E0 []).hook.update E0 1).check_collision
        (GameState.new E0 []).items).2 ∧
    ((GameState.new E0 []).update E0 false 1).hook.posX =
      (GameState.new E0 []).miner.posX +
        E0.cos ((GameState.new E0 []).update E0 false 1).hook.angle *
          ((GameState.new E0 []).update E0 false 1).hook.length ∧
    ((GameState.new E0 []).update E0 false 1).hook.posY =
      (GameState.new E0 []).miner.posY +
        E0.sin ((GameState.new E0 []).update E0 false 1).hook.angle *
          ((GameState.new E0 []).update E0 false 1).hook.length :=
  C3_collision_tip_has_no_miner_offset E0 (GameState.new E0 []) 1 rfl

/-- C4: the over flag after a tick is exactly `old ∨ timeUp` — so with real
(monotone) time it turns true exactly once, on the first tick whose elapsed
time reaches the duration; key events never change it; once it is set,
ticks and key events are the identity (no mutation of score, miner, hook,
or items); and the tick that sets it changes nothing but the flag. -/
theorem C4_over_flag_monotone_and_freezing (E : FloatEnv) (s : GameState)
    (timeUp : Bool) (dt : ℚ) (k : Key) (a : ℚ) :
    (s.update E timeUp dt).game_over = (s.game_over || timeUp) ∧
    (s.key_down_event k a).game_over = s.game_over ∧
    (s.game_over = true → s.update E timeUp dt = s ∧ s.key_down_event k a = s) ∧
    (s.game_over = false → s.update E true dt = { s with game_over := true }) := by
  refine ⟨?_, ?_, ?_, ?_⟩
  · by_cases hov : s.game_over
    · simp [GameState.update, hov]
    · rw [Bool.not_eq_true] at hov
      cases timeUp
      · simp [GameState.update, hov]
      · simp [GameState.update, hov]
  · by_cases hov : s.game_over
    · simp [GameState.key_down_event, hov]
    · rw [Bool.not_eq_true] at hov
      cases k <;> simp [GameState.key_down_event, hov]
  · intro hov
    exact ⟨by simp [GameState.update, hov], by simp [GameState.key_down_event, hov]⟩
  · intro hov
    simp [GameState.update, hov]

/-- C4, witness: a finished round absorbs a tick and a key event; a running
round's time-up tick sets only the flag. -/
theorem C4_over_flag_monotone_and_freezing_witness :
    (overRound.update E0 false 1 = overRound ∧
      overRound.key_down_event Key.left 0 = overRound) ∧
    (GameState.new E0 []).update E0 true 1 =
      { GameState.new E0 [] with game_over := true } :=
  ⟨(C4_over_flag_monotone_and_freezing E0 overRound false 1 Key.left 0).2.2.1 rfl,
   (C4_over_flag_monotone_and_freezing E0 (GameState.new E0 []) true 1 Key.left 0).2.2.2 rfl⟩

/-- `move_left` preserves the miner invariant: the guard `x > width/2`
together with the step of 5 on a 5-aligned position keeps `x ≥ 30`. -/
theorem move_left_inv {m : Miner} (h : MinerInv m) : MinerInv m.move_left := by
  obtain ⟨hw, k, hx, h6, h154⟩ := h
  by_cases hc : m.posX > m.width / 2
  · have hml : m.move_left = { m with posX := m.posX - 5 } := by
      unfold Miner.move_left
      rw [if_pos hc]
    have hk6 : 6 < k := by
      rw [hx, hw] at hc
      have h2 : (6 : ℚ) < k := by linarith
      exact_mod_cast h2
    refine ⟨by rw [hml]; exact hw, k - 1, ?_, by omega, by omega⟩
    rw [hml]
    show m.posX - 5 = 5 * ((k - 1 : ℕ) : ℚ)
    rw [hx]
    push_cast [Nat.cast_sub (by omega : 1 ≤ k)]
    ring
  · have hml : m.move_left = m := by
      unfold Miner.move_left
      rw [if_neg hc]
    rw [hml]
    exact ⟨hw, k, hx, h6, h154⟩

/-- `move_right` preserves the miner invariant. -/
theorem move_right_inv {m : Miner} (h : MinerInv m) : MinerInv m.move_right := by
  obtain ⟨hw, k, hx, h6, h154⟩ := h
  by_cases hc : m.posX < SCREEN_WIDTH - m.width / 2
  · have hmr : m.move_right = { m with posX := m.posX + 5 } := by
      unfold Miner.move_right
      rw [if_pos hc]
    have hk154 : k < 154 := by
      rw [hx, hw, SCREEN_WIDTH] at hc
      have h2 : (k : ℚ) < 154 := by linarith
      exact_mod_cast h2
    refine ⟨by rw [hmr]; exact hw, k + 1, ?_, by omega, by omega⟩
    rw [hmr]
    show m.posX + 5 = 5 * ((k + 1 : ℕ) : ℚ)
    rw [hx]
    push_cast
    ring
  · have hmr : m.move_right = m := by
      unfold Miner.move_right
      rw [if_neg hc]
    rw [hmr]
    exact ⟨hw, k, hx, h6, h154⟩

/-- Any sequence of moves preserves the miner invariant. -/
theorem applyMoves_inv (moves : List MinerMove) :
    ∀ m : Miner, MinerInv m → MinerInv (applyMoves m moves) := by
  induction moves with
  | nil => intro m h; exact h
  | cons mv rest ih =>
      intro m h
      cases mv with
      | left => exact ih m.move_left (move_left_inv h)
      | right => exact ih m.move_right (move_right_inv h)

/-- C5: from the round-start miner (centered at `SCREEN_WIDTH/2`), every
sequence of `move_left` / `move_right` calls keeps the x position within
`[width/2, SCREEN_WIDTH - width/2]`; in particular repeated `move_left`
never drops below `width/2`. -/
theorem C5_miner_clamped_to_screen (E : FloatEnv)
    (spawns : List (ItemType × ℚ × ℚ)) (moves : List MinerMove) :
    (applyMoves (GameState.new E spawns).miner moves).width / 2 ≤
      (applyMoves (GameState.new E spawns).miner moves).posX ∧
    (applyMoves (GameState.new E spawns).miner moves).posX ≤
      SCREEN_WIDTH - (applyMoves (GameState.new E spawns).miner moves).width / 2 := by
  have hinit : MinerInv (GameState.new E spawns).miner := by
    refine ⟨rfl, 80, ?_, by omega, by omega⟩
    show SCREEN_WIDTH / 2 = 5 * ((80 : ℕ) : ℚ)
    norm_num [SCREEN_WIDTH]
  obtain ⟨hw, k, hx, h6, h154⟩ := applyMoves_inv moves _ hinit
  rw [hw, hx]
  have hq6 : (6 : ℚ) ≤ (k : ℚ) := by exact_mod_cast h6
  have hq154 : (k : ℚ) ≤ 154 := by exact_mod_cast h154
  constructor
  · linarith
  · rw [SCREEN_WIDTH]
    linarith

/-- C6: in every reachable state the hook length lies in
`[0, HOOK_LENGTH]`, and the per-state mechanics are as claimed: `Idle`
holds the length at 0; `Thrown` grows it by exactly `HOOK_SPEED` per tick
and flips to `Retracting` precisely when the new length reaches
`HOOK_LENGTH`; `Retracting` shrinks it by `HOOK_SPEED`, and on the tick
that returns to `Idle` the length is floored to exactly 0; and the bounds
still hold after the tick. -/
theorem C6_length_in_bounds (E : FloatEnv) (s : GameState)
    (hreach : Reachable E s) (dt : ℚ) :
    (0 ≤ s.hook.length ∧ s.hook.length ≤ HOOK_LENGTH) ∧
    (s.hook.state = HookState.Idle → s.hook.length = 0) ∧
    (s.hook.state = HookState.Thrown →
      (s.hook.update E dt).length = s.hook.length + HOOK_SPEED ∧
      ((s.hook.update E dt).state = HookState.Retracting ↔
        HOOK_LENGTH ≤ s.hook.length + HOOK_SPEED)) ∧
    (s.hook.state = HookState.Retracting →
      ((s.hook.update E dt).state = HookState.Idle →
        (s.hook.update E dt).length = 0) ∧
      ((s.hook.update E dt).state = HookState.Retracting →
        (s.hook.update E dt).length = s.hook.length - HOOK_SPEED)) ∧
    (s.hook.state = HookState.Idle → (s.hook.update E dt).length = 0) ∧
    (0 ≤ (s.hook.update E dt).length ∧ (s.hook.update E dt).length ≤ HOOK_LENGTH) := by
  obtain ⟨hleninv, _, _, _⟩ := reachable_inv E s hreach
  obtain ⟨⟨k, hk⟩, hle, hthr, hidle⟩ := hleninv
  have h0 : 0 ≤ s.hook.length := by rw [hk]; positivity
  obtain ⟨⟨k2, hk2⟩, hle2, _, _⟩ :=
    update_len_inv E dt (⟨⟨k, hk⟩, hle, hthr, hidle⟩ : LenInv s.hook)
  have h02 : 0 ≤ (s.hook.update E dt).length := by rw [hk2]; positivity
  refine ⟨⟨h0, hle⟩, hidle, ?_, ?_, ?_, h02, hle2⟩
  · intro hst
    rw [update_eq_of_thrown E dt hst]
    by_cases hmax : HOOK_LENGTH ≤ s.hook.length + HOOK_SPEED
    · rw [if_pos hmax]
      exact ⟨rfl, by simp [hmax]⟩
    · rw [if_neg hmax]
      exact ⟨rfl, by simp [hmax, hst]⟩
  · intro hst
    rw [update_eq_of_retracting E dt hst]
    by_cases hzero : s.hook.length - HOOK_SPEED ≤ 0
    · rw [if_pos hzero]
      exact ⟨fun _ => rfl, fun hcon => by simp at hcon⟩
    · rw [if_neg hzero]
      exact ⟨fun hcon => by simp [hst] at hcon, fun _ => rfl⟩
  · intro hst
    rw [update_eq_of_idle E dt hst]

/-- C6, witness: the bounds at the initial state. -/
theorem C6_length_in_bounds_witness :
    0 ≤ (GameState.new E0 []).hook.length ∧
    (GameState.new E0 []).hook.length ≤ HOOK_LENGTH :=
  (C6_length_in_bounds E0 (GameState.new E0 []) (Reachable.init []) 1).1

/-- C7: in every reachable state an attachment exists only while the hook
is `Thrown` or `Retracting`; while `Idle` the attachment is `none`; and
immediately after any tick that lands in `Idle` the attachment is `none`
(the transition into `Idle` clears it). -/
theorem C7_attachment_only_while_swinging (E : FloatEnv) (s : GameState)
    (hreach : Reachable E s) (dt : ℚ) :
    (s.hook.attached_item.isSome = true →
      s.hook.state = HookState.Thrown ∨ s.hook.state = HookState.Retracting) ∧
    (s.hook.state = HookState.Idle → s.hook.attached_item = none) ∧
    ((s.hook.update E dt).state = HookState.Idle →
      (s.hook.update E dt).attached_item = none) := by
  obtain ⟨_, hidle, _, _⟩ := reachable_inv E s hreach
  refine ⟨?_, hidle, update_idle_inv E dt hidle⟩
  intro hsome
  cases hst : s.hook.state with
  | Idle => rw [hidle hst] at hsome; simp at hsome
  | Thrown => exact Or.inl rfl
  | Retracting => exact Or.inr rfl

/-- C7, witness: at the initial state the idle hook carries nothing. -/
theorem C7_attachment_only_while_swinging_witness :
    (GameState.new E0 []).hook.attached_item = none :=
  (C7_attachment_only_while_swinging E0 (GameState.new E0 [])
    (Reachable.init []) 1).2.1 rfl

/-- C8: `check_collision` is the identity unless the hook is `Thrown` with
nothing attached; in that case, if no item is an uncollected hit it changes
nothing, and if index `i` is an uncollected hit and every item before `i`
in creation order is not, it attaches exactly `i` — recording the index,
marking that one item collected, and forcing `Retracting`.  The
lowest-index condition is the claimed tie-break: whenever several items
overlap the tip, the first one in creation order is the one attached. -/
theorem C8_first_uncollected_hit_attaches (hk : Hook) (items : List Item) :
    (¬(hk.state = HookState.Thrown ∧ hk.attached_item = none) →
      hk.check_collision items = (hk, items)) ∧
    (hk.state = HookState.Thrown → hk.attached_item = none →
      ((∀ it ∈ items, ¬(it.collected = false ∧ hitTest hk.posX hk.posY it)) →
        hk.check_collision items = (hk, items)) ∧
      (∀ i (hi : i < items.length),
        (items.get ⟨i, hi⟩).collected = false →
        hitTest hk.posX hk.posY (items.get ⟨i, hi⟩) →
        (∀ it ∈ items.take i, ¬(it.collected = false ∧ hitTest hk.posX hk.posY it)) →
        hk.check_collision items =
          ({ hk with attached_item := some i, state := HookState.Retracting },
            items.set i { items.get ⟨i, hi⟩ with collected := true }))) := by
  constructor
  · exact fun hpre => check_collision_noop items hpre
  · intro hthrown hnone
    constructor
    · intro hnohit
      have hsc := scanItems_none hk.posX hk.posY items 0 hnohit
      simp [Hook.check_collision, hthrown, hnone, hsc]
    · intro i hi hcol hhit hbefore
      have hsc := scanItems_attach hk.posX hk.posY items 0 i hi hcol hhit hbefore
      simp [Hook.check_collision, hthrown, hnone, hsc]

/-- C8, witness: a thrown hook with tip `(81, 108)` over a single
uncollected gold item at `(90, 120)` attaches it (distances 9 and 12 are
below the half-size 15), marks it collected, and retracts. -/
theorem C8_first_uncollected_hit_attaches_witness :
    (Hook.mk 81 108 1 135 HookState.Thrown none).check_collision
        [⟨ItemType.Gold, 90, 120, false⟩] =
      (⟨81, 108, 1, 135, HookState.Retracting, some 0⟩,
        [⟨ItemType.Gold, 90, 120, true⟩]) := by
  have h := (C8_first_uncollected_hit_attaches
      (Hook.mk 81 108 1 135 HookState.Thrown none)
      [⟨ItemType.Gold, 90, 120, false⟩]).2 rfl rfl
  have h2 := h.2 0 (by norm_num) rfl
    (by norm_num [hitTest, Item.size, ITEM_SIZE]) (by simp)
  simpa using h2

/-- C9: `throw` fires only from `Idle`: it then sets the angle, resets the
length to 0, clears the attachment and goes to `Thrown` (leaving the stored
position untouched); from `Thrown` or `Retracting` it changes nothing at
all. -/
theorem C9_throw_only_from_idle (hk : Hook) (a : ℚ) :
    (hk.state = HookState.Idle →
      hk.throw a = { hk with
        angle := a, state := HookState.Thrown, length := 0,
        attached_item := none }) ∧
    (hk.state ≠ HookState.Idle → hk.throw a = hk) := by
  constructor
  · intro hs
    simp [Hook.throw, hs]
  · intro hs
    simp [Hook.throw, hs]

/-- C9, witness: an idle hook fires; a thrown hook ignores the command,
keeping its angle and length. -/
theorem C9_throw_only_from_idle_witness :
    (Hook.mk 400 50 2 0 HookState.Idle none).throw 1 =
      ⟨400, 50, 1, 0, HookState.Thrown, none⟩ ∧
    (Hook.mk 403 54 1 5 HookState.Thrown none).throw 0 =
      ⟨403, 54, 1, 5, HookState.Thrown, none⟩ := by
  constructor
  · have h := (C9_throw_only_from_idle
      (Hook.mk 400 50 2 0 HookState.Idle none) 1).1 rfl
    simpa using h
  · have h := (C9_throw_only_from_idle
      (Hook.mk 403 54 1 5 HookState.Thrown none) 0).2 (by simp)
    simpa using h

/-- C10: in every reachable state an attached index is inside the live
item list, and the hook length is never negative. -/
theorem C10_attached_index_in_bounds (E : FloatEnv) (s : GameState)
    (hreach : Reachable E s) :
    (∀ i, s.hook.attached_item = some i → i < s.items.length) ∧
    0 ≤ s.hook.length := by
  obtain ⟨⟨⟨k, hk⟩, _, _, _⟩, _, hbound, _⟩ := reachable_inv E s hreach
  exact ⟨hbound, by rw [hk]; positivity⟩

/-- C10, witness: non-negative length at the initial state. -/
theorem C10_attached_index_in_bounds_witness :
    0 ≤ (GameState.new E0 []).hook.length :=
  (C10_attached_index_in_bounds E0 (GameState.new E0 []) (Reachable.init [])).2
